import Mathlib

/-!
Verification of the WEBGSTBILL core invoice/GST engine.

The definitions below are a shallow embedding of the Python sources under
`backend/app`:
  * `app/utils/helpers.py`       (rounding and percentage helpers)
  * `app/utils/validators.py`    (GSTIN / HSN format validators)
  * `app/services/gst_calculator.py`
  * `app/services/purchase_gst_calculator.py`
  * `app/services/invoice_service.py`
  * `app/services/report_service.py` (`generate_gst_summary`)
  * `app/api/purchases.py`       (`finalize_purchase`)
  * the SQLAlchemy models in `app/models`.

Monetary amounts are integers in paise, embedded as `Int`.  Python `Decimal`
arithmetic is embedded as exact rational arithmetic (`Rat`); for the rates
in the allowed set and for amounts far below the 28-significant-digit
`Decimal` context limit this is exact.  Python `round` applied to a
`Decimal` uses `ROUND_HALF_EVEN` (ties to even); `int(...)` truncates
toward zero.  Both are modelled explicitly below.
-/

/-- Banker's rounding: nearest integer, ties to the even integer.  This is
what Python's built-in `round` does on a `Decimal` argument (the default
`ROUND_HALF_EVEN` context), hence what `helpers.round_gst_amount` does. -/
def roundHalfEven (q : ℚ) : ℤ :=
  if q - ⌊q⌋ < 1/2 then ⌊q⌋
  else if 1/2 < q - ⌊q⌋ then ⌊q⌋ + 1
  else if ⌊q⌋ % 2 = 0 then ⌊q⌋ else ⌊q⌋ + 1

/-- Modelled from the spec: rounding to the nearest integer with ties at
exactly .5 rounded half-up, away from zero.  This is the rounding rule the
spec asserts; it is compared against the code's `roundHalfEven`. -/
def specRoundHalfUp (q : ℚ) : ℤ :=
  if 0 ≤ q then ⌊q + 1/2⌋ else -⌊-q + 1/2⌋

/-- Python `int(...)` on a numeric value: truncation toward zero. -/
def pyTrunc (q : ℚ) : ℤ :=
  if 0 ≤ q then ⌊q⌋ else -⌊-q⌋

/-- `helpers.round_gst_amount`: `round(amount)` on a `Decimal`. -/
def round_gst_amount (amount : ℚ) : ℤ :=
  roundHalfEven amount

/-- `helpers.calculate_percentage`: `round_gst_amount(Decimal(amount) * percentage / 100)`. -/
def calculate_percentage (amount : ℤ) (percentage : ℚ) : ℤ :=
  round_gst_amount ((amount : ℚ) * percentage / 100)

/-- `gst_calculator.TaxBreakup`: all components in integer paise. -/
structure TaxBreakup where
  taxable_amount_paise : ℤ
  cgst_paise : ℤ
  sgst_paise : ℤ
  igst_paise : ℤ
  total_tax_paise : ℤ
  total_amount_paise : ℤ
deriving DecidableEq, Repr

/-- `invoice_service.ALLOWED_GST_RATES` (also validated by the purchase schema). -/
def ALLOWED_GST_RATES : List ℚ := [0, 5, 12, 18, 28]

/-- `gst_calculator.calculate_gst`: intra-state splits the rate into two
equal halves (CGST + SGST), inter-state levies the full rate as IGST. -/
def calculate_gst (taxable_amount_paise : ℤ) (gst_rate : ℚ)
    (seller_state_code buyer_state_code : String) : TaxBreakup :=
  if seller_state_code = buyer_state_code then
    let half_rate := gst_rate / 2
    let cgst := calculate_percentage taxable_amount_paise half_rate
    let sgst := calculate_percentage taxable_amount_paise half_rate
    { taxable_amount_paise := taxable_amount_paise
      cgst_paise := cgst
      sgst_paise := sgst
      igst_paise := 0
      total_tax_paise := cgst + sgst
      total_amount_paise := taxable_amount_paise + cgst + sgst }
  else
    let igst := calculate_percentage taxable_amount_paise gst_rate
    { taxable_amount_paise := taxable_amount_paise
      cgst_paise := 0
      sgst_paise := 0
      igst_paise := igst
      total_tax_paise := igst
      total_amount_paise := taxable_amount_paise + igst }

/-- `gst_calculator.calculate_line_item_tax`: taxable amount is
`quantity * unit_price_paise`. -/
def calculate_line_item_tax (quantity unit_price_paise : ℤ) (gst_rate : ℚ)
    (seller_state_code buyer_state_code : String) : TaxBreakup :=
  calculate_gst (quantity * unit_price_paise) gst_rate seller_state_code buyer_state_code

/-- `gst_calculator.aggregate_invoice_taxes`: component-wise summation of
the already-rounded per-line breakups. -/
def aggregate_invoice_taxes (line_items : List TaxBreakup) : TaxBreakup :=
  let total_taxable := (line_items.map (fun t => t.taxable_amount_paise)).sum
  let total_cgst := (line_items.map (fun t => t.cgst_paise)).sum
  let total_sgst := (line_items.map (fun t => t.sgst_paise)).sum
  let total_igst := (line_items.map (fun t => t.igst_paise)).sum
  { taxable_amount_paise := total_taxable
    cgst_paise := total_cgst
    sgst_paise := total_sgst
    igst_paise := total_igst
    total_tax_paise := total_cgst + total_sgst + total_igst
    total_amount_paise := total_taxable + total_cgst + total_sgst + total_igst }

/-- `purchase_gst_calculator.PurchaseItemTax`. -/
structure PurchaseItemTax where
  subtotal : ℤ
  cgst_amount : ℤ
  sgst_amount : ℤ
  igst_amount : ℤ
  total_amount : ℤ
  tax_type : String
deriving DecidableEq, Repr

/-- `purchase_gst_calculator.calculate_purchase_item_tax`.  The Python code
computes `subtotal = int(quantity * unit_rate)` and each component as
`int((subtotal * rate) / 100)` in float arithmetic: for the allowed rates
and amounts in range the float expressions are exact rationals, so the
components are exact truncations (`pyTrunc`), not half-even roundings. -/
def calculate_purchase_item_tax (quantity : ℚ) (unit_rate gst_rate : ℤ)
    (supplier_state_code business_state_code : String) : PurchaseItemTax :=
  let subtotal := pyTrunc (quantity * (unit_rate : ℚ))
  if gst_rate = 0 then
    { subtotal := subtotal
      cgst_amount := 0
      sgst_amount := 0
      igst_amount := 0
      total_amount := subtotal
      tax_type := "CGST_SGST" }
  else if supplier_state_code = business_state_code then
    let cgst := pyTrunc ((subtotal : ℚ) * ((gst_rate : ℚ) / 2) / 100)
    let sgst := pyTrunc ((subtotal : ℚ) * ((gst_rate : ℚ) / 2) / 100)
    { subtotal := subtotal
      cgst_amount := cgst
      sgst_amount := sgst
      igst_amount := 0
      total_amount := subtotal + cgst + sgst
      tax_type := "CGST_SGST" }
  else
    let igst := pyTrunc ((subtotal : ℚ) * (gst_rate : ℚ) / 100)
    { subtotal := subtotal
      cgst_amount := 0
      sgst_amount := 0
      igst_amount := igst
      total_amount := subtotal + igst
      tax_type := "IGST" }

/-! ### Properties of the rounding primitives -/

theorem floor_frac_nonneg (q : ℚ) : 0 ≤ q - ⌊q⌋ :=
  sub_nonneg.mpr (Int.floor_le q)

theorem floor_frac_lt_one (q : ℚ) : q - ⌊q⌋ < 1 := by
  have := Int.lt_floor_add_one q
  linarith

theorem roundHalfEven_intCast (n : ℤ) : roundHalfEven (n : ℚ) = n := by
  norm_num [roundHalfEven, Int.floor_intCast]

theorem roundHalfEven_zero : roundHalfEven 0 = 0 := by
  norm_num [roundHalfEven]

theorem pyTrunc_intCast (n : ℤ) : pyTrunc (n : ℚ) = n := by
  unfold pyTrunc
  split_ifs with h
  · exact_mod_cast Int.floor_intCast n
  · rw [← Int.cast_neg, Int.floor_intCast]
    ring

theorem one_le_roundHalfEven {q : ℚ} (h : 1/2 < q) : 1 ≤ roundHalfEven q := by
  have h0 : (⌊q⌋ : ℚ) ≤ q := Int.floor_le q
  have h1 : q < ⌊q⌋ + 1 := Int.lt_floor_add_one q
  unfold roundHalfEven
  split_ifs with hb1 hb2 hb3
  · by_contra hle
    push_neg at hle
    have hle2 : ⌊q⌋ ≤ 0 := by omega
    have : (⌊q⌋ : ℚ) ≤ 0 := by exact_mod_cast hle2
    linarith
  · have : 0 ≤ ⌊q⌋ := Int.floor_nonneg.mpr (by linarith)
    omega
  · have hr : q - ⌊q⌋ = 1/2 := le_antisymm (not_lt.mp hb2) (not_lt.mp hb1)
    have : (0:ℚ) < ⌊q⌋ := by linarith
    have : (0:ℤ) < ⌊q⌋ := by exact_mod_cast this
    omega
  · have hr : q - ⌊q⌋ = 1/2 := le_antisymm (not_lt.mp hb2) (not_lt.mp hb1)
    have : (0:ℚ) < ⌊q⌋ := by linarith
    have : (0:ℤ) < ⌊q⌋ := by exact_mod_cast this
    omega

theorem abs_sub_roundHalfEven_le (q : ℚ) : |q - (roundHalfEven q : ℚ)| ≤ 1/2 := by
  have h0 : (⌊q⌋ : ℚ) ≤ q := Int.floor_le q
  have h1 : q < ⌊q⌋ + 1 := Int.lt_floor_add_one q
  unfold roundHalfEven
  split_ifs with hb1 hb2 hb3
  · rw [abs_le]
    constructor <;> linarith
  · rw [abs_le]
    push_cast
    constructor <;> linarith
  · have hr : q - ⌊q⌋ = 1/2 := le_antisymm (not_lt.mp hb2) (not_lt.mp hb1)
    rw [abs_le]
    constructor <;> linarith
  · have hr : q - ⌊q⌋ = 1/2 := le_antisymm (not_lt.mp hb2) (not_lt.mp hb1)
    rw [abs_le]
    push_cast
    constructor <;> linarith

theorem roundHalfEven_tie_even (k : ℤ) : roundHalfEven ((k : ℚ) + 1/2) % 2 = 0 := by
  have hf : ⌊(k : ℚ) + 1/2⌋ = k := by
    rw [add_comm, Int.floor_add_int]
    norm_num
  unfold roundHalfEven
  rw [hf]
  have hsub : ((k:ℚ) + 1/2) - k = 1/2 := by ring
  rw [hsub]
  norm_num
  split_ifs with h
  · exact h
  · omega

/-! ### Claim C1: CGST/SGST vs IGST split of the Tax Engine -/

/-- C1 (counterexample): the claim asserts that for every non-negative
taxable amount, whenever the states differ and the rate is non-zero, the
IGST is strictly positive.  At taxable amount `1` paise and rate `5` the
exact tax is `0.05` paise, which rounds to `0`: the IGST is not positive,
so the claim as stated is false. -/
theorem c1_igst_positivity_counterexample :
    (0:ℤ) ≤ 1 ∧ (5:ℚ) ∈ ALLOWED_GST_RATES ∧ ("07" : String) ≠ "29" ∧ (5:ℚ) ≠ 0 ∧
    ¬ 0 < (calculate_gst 1 5 "07" "29").igst_paise := by
  refine ⟨by norm_num, by norm_num [ALLOWED_GST_RATES], by decide, by norm_num, ?_⟩
  norm_num [calculate_gst, calculate_percentage, round_gst_amount, roundHalfEven]

/-- C1 (amended): for a non-negative taxable amount in paise and a rate in
the allowed set, `calculate_gst` satisfies: same state implies
`cgst = sgst` and `igst = 0`; different states imply `cgst = sgst = 0`;
rate `0` implies all three components are `0`; and with different states
the IGST is strictly positive provided the exact tax exceeds half a paise,
i.e. `50 < amount * rate` (for smaller amounts the tax rounds to `0`). -/
theorem c1_gst_split_amended (amount : ℤ) (rate : ℚ) (seller buyer : String)
    (_hamount : 0 ≤ amount) (_hrate : rate ∈ ALLOWED_GST_RATES) :
    (seller = buyer →
        (calculate_gst amount rate seller buyer).cgst_paise =
          (calculate_gst amount rate seller buyer).sgst_paise ∧
        (calculate_gst amount rate seller buyer).igst_paise = 0) ∧
    (seller ≠ buyer →
        (calculate_gst amount rate seller buyer).cgst_paise = 0 ∧
        (calculate_gst amount rate seller buyer).sgst_paise = 0) ∧
    (rate = 0 →
        (calculate_gst amount rate seller buyer).cgst_paise = 0 ∧
        (calculate_gst amount rate seller buyer).sgst_paise = 0 ∧
        (calculate_gst amount rate seller buyer).igst_paise = 0) ∧
    (seller ≠ buyer → 50 < (amount : ℚ) * rate →
        0 < (calculate_gst amount rate seller buyer).igst_paise) := by
  by_cases hsb : seller = buyer
  · refine ⟨fun _ => ⟨?_, ?_⟩, fun hne => absurd hsb hne, fun hr0 => ?_, fun hne => absurd hsb hne⟩
    · simp [calculate_gst, hsb]
    · simp [calculate_gst, hsb]
    · subst hr0
      simp [calculate_gst, hsb, calculate_percentage, round_gst_amount, roundHalfEven]
  · refine ⟨fun heq => absurd heq hsb, fun _ => ?_, fun hr0 => ?_, fun _ hgt => ?_⟩
    · simp [calculate_gst, hsb]
    · subst hr0
      simp [calculate_gst, hsb, calculate_percentage, round_gst_amount, roundHalfEven]
    · have hhalf : (1:ℚ)/2 < (amount : ℚ) * rate / 100 := by
        rw [lt_div_iff₀ (by norm_num : (0:ℚ) < 100)]
        linarith
      have hone := one_le_roundHalfEven hhalf
      simp only [calculate_gst, if_neg hsb, calculate_percentage, round_gst_amount]
      omega

/-- C1 witness: concrete instantiation of the amended claim at taxable
amount 10000 paise, rate 18, inter-state. -/
theorem c1_gst_split_amended_witness :
    0 < (calculate_gst 10000 18 "07" "29").igst_paise :=
  (c1_gst_split_amended 10000 18 "07" "29" (by norm_num)
      (by norm_num [ALLOWED_GST_RATES])).2.2.2 (by decide) (by norm_num)

/-! ### Claim C6: rounding rule of the Tax Engine -/

/-- C6 (counterexample): the claim asserts ties at exactly `.5` paise are
rounded half-up (away from zero).  `helpers.round_gst_amount` is Python's
`round` on a `Decimal`, which rounds ties to even: at taxable amount 10
paise and rate 5 inter-state, the exact tax is `0.5` paise, the claimed
half-up rule gives `1`, but the code computes `0`. -/
theorem c6_half_up_counterexample :
    (calculate_gst 10 5 "07" "29").igst_paise = 0 ∧
    specRoundHalfUp ((10 : ℚ) * 5 / 100) = 1 ∧
    (calculate_gst 10 5 "07" "29").igst_paise ≠ specRoundHalfUp ((10 : ℚ) * 5 / 100) := by
  norm_num [calculate_gst, calculate_percentage, round_gst_amount, roundHalfEven,
    specRoundHalfUp]

/-- C6 (amended): the Tax Engine rounds each component to the nearest
integer paise deterministically, but ties at exactly `.5` paise round
half-to-even (banker's rounding), not half-up: in the same-state case
`cgst = sgst = roundHalfEven (amount * (rate/2) / 100)`, in the
different-state case `igst = roundHalfEven (amount * rate / 100)`, where
`roundHalfEven` is within half a paise of the exact value and maps every
tie `k + 1/2` to an even integer. -/
theorem c6_rounding_amended (amount : ℤ) (rate : ℚ) (seller buyer : String) :
    (seller = buyer →
        (calculate_gst amount rate seller buyer).cgst_paise =
          roundHalfEven ((amount : ℚ) * (rate / 2) / 100) ∧
        (calculate_gst amount rate seller buyer).sgst_paise =
          roundHalfEven ((amount : ℚ) * (rate / 2) / 100)) ∧
    (seller ≠ buyer →
        (calculate_gst amount rate seller buyer).igst_paise =
          roundHalfEven ((amount : ℚ) * rate / 100)) ∧
    (∀ q : ℚ, |q - (roundHalfEven q : ℚ)| ≤ 1/2) ∧
    (∀ k : ℤ, roundHalfEven ((k : ℚ) + 1/2) % 2 = 0) := by
  refine ⟨fun hsb => ?_, fun hsb => ?_, abs_sub_roundHalfEven_le, roundHalfEven_tie_even⟩
  · constructor <;> simp [calculate_gst, hsb, calculate_percentage, round_gst_amount]
  · simp [calculate_gst, hsb, calculate_percentage, round_gst_amount]

/-- C6 witness: the amended rounding rule instantiated at the spec's own
example (taxable 10000 paise, rate 18, same state: cgst = 900). -/
theorem c6_rounding_amended_witness :
    (calculate_gst 10000 18 "29" "29").cgst_paise =
      roundHalfEven ((10000 : ℚ) * (18 / 2) / 100) :=
  ((c6_rounding_amended 10000 18 "29" "29").1 rfl).1

/-! ### Claim C5: purchase-side tax vs the Tax Engine -/

/-- C5 (counterexample): the claim asserts `calculate_purchase_item_tax`
yields the same components as `calculate_gst` on the same taxable amount,
rate and state pair.  At quantity 1, unit rate 70 paise, rate 5,
inter-state, the exact tax is 3.5 paise: the purchase calculator truncates
(`int`) to 3 while the Tax Engine rounds half-even to 4. -/
theorem c5_purchase_vs_engine_counterexample :
    (calculate_purchase_item_tax 1 70 5 "07" "29").subtotal = 70 ∧
    (calculate_gst 70 5 "07" "29").taxable_amount_paise = 70 ∧
    (calculate_purchase_item_tax 1 70 5 "07" "29").igst_amount = 3 ∧
    (calculate_gst 70 5 "07" "29").igst_paise = 4 ∧
    (calculate_purchase_item_tax 1 70 5 "07" "29").igst_amount ≠
      (calculate_gst 70 5 "07" "29").igst_paise := by
  norm_num [calculate_purchase_item_tax, calculate_gst, calculate_percentage,
    round_gst_amount, roundHalfEven, pyTrunc]
  decide

/-- C5 (amended): for a purchase line with non-negative quantity, unit rate
in paise and a rate from the allowed set, the purchase calculator computes
tax on the same taxable amount `int(quantity * unit_rate)` as the Tax
Engine, but truncates each component toward zero instead of rounding
half-even; all five monetary components agree with `calculate_gst`
whenever the exact tax is a whole number of paise, i.e. when
`200 ∣ subtotal * gst_rate`. -/
theorem c5_purchase_tax_amended (quantity : ℚ) (unit_rate gst_rate : ℤ)
    (supplier business : String) (_hq : 0 ≤ quantity)
    (_hr : gst_rate ∈ ([0, 5, 12, 18, 28] : List ℤ))
    (hdvd : (200 : ℤ) ∣ pyTrunc (quantity * (unit_rate : ℚ)) * gst_rate) :
    (calculate_purchase_item_tax quantity unit_rate gst_rate supplier business).subtotal =
      (calculate_gst (pyTrunc (quantity * (unit_rate : ℚ))) (gst_rate : ℚ)
        supplier business).taxable_amount_paise ∧
    (calculate_purchase_item_tax quantity unit_rate gst_rate supplier business).cgst_amount =
      (calculate_gst (pyTrunc (quantity * (unit_rate : ℚ))) (gst_rate : ℚ)
        supplier business).cgst_paise ∧
    (calculate_purchase_item_tax quantity unit_rate gst_rate supplier business).sgst_amount =
      (calculate_gst (pyTrunc (quantity * (unit_rate : ℚ))) (gst_rate : ℚ)
        supplier business).sgst_paise ∧
    (calculate_purchase_item_tax quantity unit_rate gst_rate supplier business).igst_amount =
      (calculate_gst (pyTrunc (quantity * (unit_rate : ℚ))) (gst_rate : ℚ)
        supplier business).igst_paise ∧
    (calculate_purchase_item_tax quantity unit_rate gst_rate supplier business).total_amount =
      (calculate_gst (pyTrunc (quantity * (unit_rate : ℚ))) (gst_rate : ℚ)
        supplier business).total_amount_paise := by
  set T := pyTrunc (quantity * (unit_rate : ℚ)) with hT
  obtain ⟨m, hm⟩ := hdvd
  have hhalf : (T : ℚ) * ((gst_rate : ℚ) / 2) / 100 = (m : ℚ) := by
    have : (T : ℚ) * (gst_rate : ℚ) = 200 * (m : ℚ) := by exact_mod_cast congrArg Int.cast hm
    field_simp
    linarith
  have hfull : (T : ℚ) * (gst_rate : ℚ) / 100 = ((2 * m : ℤ) : ℚ) := by
    have : (T : ℚ) * (gst_rate : ℚ) = 200 * (m : ℚ) := by exact_mod_cast congrArg Int.cast hm
    push_cast
    field_simp
    linarith
  by_cases h0 : gst_rate = 0
  · subst h0
    by_cases hsb : supplier = business <;>
      simp [calculate_purchase_item_tax, calculate_gst, hsb, calculate_percentage,
        round_gst_amount, roundHalfEven, hT]
  · by_cases hsb : supplier = business
    · have hcgst : pyTrunc ((T : ℚ) * ((gst_rate : ℚ) / 2) / 100) = m := by
        rw [hhalf, pyTrunc_intCast]
      have hcgst2 : calculate_percentage T ((gst_rate : ℚ) / 2) = m := by
        rw [calculate_percentage, round_gst_amount, hhalf, roundHalfEven_intCast]
      simp only [calculate_purchase_item_tax, calculate_gst, if_neg h0, if_pos hsb,
        hcgst, hcgst2, hT]
      and_intros <;> trivial
    · have higst : pyTrunc ((T : ℚ) * (gst_rate : ℚ) / 100) = 2 * m := by
        rw [hfull, pyTrunc_intCast]
      have higst2 : calculate_percentage T (gst_rate : ℚ) = 2 * m := by
        rw [calculate_percentage, round_gst_amount, hfull, roundHalfEven_intCast]
      simp only [calculate_purchase_item_tax, calculate_gst, if_neg h0, if_neg hsb,
        higst, higst2, hT]
      and_intros <;> trivial

/-- C5 witness: quantity 1, unit rate 10000 paise, rate 18, same state; the
exact tax 1800 paise is integral, the two calculators agree. -/
theorem c5_purchase_tax_amended_witness :
    (calculate_purchase_item_tax 1 10000 18 "29" "29").cgst_amount =
      (calculate_gst (pyTrunc ((1 : ℚ) * (10000 : ℤ))) ((18 : ℤ) : ℚ)
        "29" "29").cgst_paise :=
  (c5_purchase_tax_amended 1 10000 18 "29" "29" (by norm_num) (by decide)
      (by norm_num [pyTrunc])).2.1

/-! ### Validators (`app/utils/validators.py`)

The GSTIN checksum toggle (`settings.gstin_checksum_enforced`) defaults to
`False` in `app/config.py`, so `validate_gstin` is the pure format check. -/

/-- `validators.validate_gstin` with the default (disabled) checksum toggle:
15 characters matching `[0-9]{2}[A-Z]{5}[0-9]{4}[A-Z][1-9A-Z]Z[0-9A-Z]`. -/
def validate_gstin (gstin : String) : Bool :=
  match gstin.data with
  | [c0, c1, c2, c3, c4, c5, c6, c7, c8, c9, c10, c11, c12, c13, c14] =>
    c0.isDigit && c1.isDigit &&
    c2.isUpper && c3.isUpper && c4.isUpper && c5.isUpper && c6.isUpper &&
    c7.isDigit && c8.isDigit && c9.isDigit && c10.isDigit &&
    c11.isUpper &&
    ((c12.isDigit && c12 != '0') || c12.isUpper) &&
    c13 == 'Z' &&
    (c14.isDigit || c14.isUpper)
  | _ => false

/-- `validators.extract_state_code_from_gstin`: first two characters of a
valid GSTIN, else `None`. -/
def extract_state_code_from_gstin (gstin : String) : Option String :=
  if validate_gstin gstin then some (gstin.take 2) else none

/-- `validators.validate_hsn_code` at the default `"medium"` turnover
category: all digits, length 4, 6 or 8. -/
def validate_hsn_code (hsn : String) : Bool :=
  !hsn.isEmpty && hsn.data.all Char.isDigit &&
    (hsn.length == 4 || hsn.length == 6 || hsn.length == 8)

/-! ### Data model (`app/models`)

Dates are embedded as integers (day ordinals), timestamps as naturals.
Monetary amounts are integer paise. -/

/-- `models/product.py` `Product`. -/
structure Product where
  name : String
  description : Option String
  hsn_code : String
  gst_rate : ℚ
  price_paise : ℤ
  stock_quantity : ℤ
  unit : String
  is_active : Bool
deriving DecidableEq, Repr

/-- `models/customer.py` `Customer`. -/
structure Customer where
  name : String
  customer_type : String
  gstin : Option String
  address : String
  state : String
  state_code : String
  phone : Option String
  email : Option String
  is_active : Bool
deriving DecidableEq, Repr

/-- `Customer.is_b2b`: `customer_type == "B2B"`. -/
def Customer.is_b2b (c : Customer) : Bool :=
  c.customer_type == "B2B"

/-- `models/business.py` `BusinessProfile` (field `invoicePrefix` embeds the
source column `invoice_prefix`). -/
structure BusinessProfile where
  id : ℕ
  name : String
  gstin : String
  state_code : String
  address : String
  city : String
  pincode : String
  phone : Option String
  email : Option String
  invoicePrefix : String
  invoice_start_number : ℕ
  current_invoice_number : ℕ
deriving DecidableEq, Repr

/-- Zero-padding to width 6, as Python's format spec `06d` (wider numbers
are printed in full). -/
def pad6 (n : ℕ) : String :=
  let s := toString n
  if s.length < 6 then String.mk (List.replicate (6 - s.length) '0') ++ s else s

/-- `BusinessProfile.generate_invoice_number`: formats
`prefix + counter(06d)` and increments the counter; returns the number and
the updated profile (the Python method mutates `self`). -/
def generate_invoice_number (b : BusinessProfile) : String × BusinessProfile :=
  (b.invoicePrefix ++ pad6 b.current_invoice_number,
   { b with current_invoice_number := b.current_invoice_number + 1 })

/-- Frozen customer snapshot (`invoice_service._create_customer_snapshot`).
`Customer` has no `city`/`pincode` columns, so `getattr(..., None)` always
yields `None` for those two keys. -/
structure CustomerSnapshot where
  id : ℕ
  name : String
  gstin : Option String
  state_code : String
  address : Option String
  city : Option String
  pincode : Option String
  phone : Option String
  email : Option String
deriving DecidableEq, Repr

/-- `invoice_service._create_customer_snapshot`. -/
def createCustomerSnapshot (cid : ℕ) (c : Customer) : CustomerSnapshot :=
  { id := cid, name := c.name, gstin := c.gstin, state_code := c.state_code,
    address := some c.address, city := none, pincode := none,
    phone := c.phone, email := c.email }

/-- Frozen business snapshot (`invoice_service._create_business_snapshot`). -/
structure BusinessSnapshot where
  id : ℕ
  name : String
  gstin : String
  state_code : String
  address : String
  city : String
  pincode : String
  phone : Option String
  email : Option String
deriving DecidableEq, Repr

/-- `invoice_service._create_business_snapshot`. -/
def createBusinessSnapshot (b : BusinessProfile) : BusinessSnapshot :=
  { id := b.id, name := b.name, gstin := b.gstin, state_code := b.state_code,
    address := b.address, city := b.city, pincode := b.pincode,
    phone := b.phone, email := b.email }

/-- `models/invoice.py` `InvoiceItem`: frozen per-line snapshot. -/
structure InvoiceItem where
  product_id : Option ℕ
  product_name : String
  description : Option String
  hsn_code : String
  quantity : ℤ
  unit : String
  unit_price_paise : ℤ
  gst_rate : ℚ
  taxable_amount_paise : ℤ
  cgst_paise : ℤ
  sgst_paise : ℤ
  igst_paise : ℤ
  gst_amount_paise : ℤ
  total_paise : ℤ
deriving DecidableEq, Repr

/-- `models/invoice.py` `Invoice`. -/
structure Invoice where
  id : ℕ
  invoice_number : String
  invoice_date : ℤ
  place_of_supply : String
  invoice_type : String
  status : String
  customer_id : ℕ
  customer_snapshot : CustomerSnapshot
  business_snapshot : BusinessSnapshot
  finalized_at : Option ℕ
  subtotal_paise : ℤ
  cgst_paise : ℤ
  sgst_paise : ℤ
  igst_paise : ℤ
  total_paise : ℤ
  total_taxable_value_paise : ℤ
  total_gst_paise : ℤ
  grand_total_paise : ℤ
  round_off_paise : ℤ
  is_cancelled : Bool
  cancelled_at : Option ℕ
  cancellation_reason : Option String
  items : List InvoiceItem
deriving DecidableEq, Repr

/-! ### Invoice Lifecycle Manager (`app/services/invoice_service.py`)

The service runs inside one request-scoped SQLAlchemy session
(`database.get_db`): `db.commit()` is called exactly once at the end of
each operation, and when an `HTTPException` is raised the session is
closed without committing, rolling back every in-memory mutation (stock
decrements, the invoice-number counter, pending rows).  The embedding
makes this explicit: the body threads a working state and the wrapper
commits it only on success, returning the caller's state untouched on
error. -/

/-- Error taxonomy of the spec (§7). -/
inductive ErrKind where
  | validation
  | notFound
  | conflict
  | insufficientResource
deriving DecidableEq, Repr

/-- One constructor per `raise HTTPException` site in `create_invoice`. -/
inductive CreateErr where
  | futureDate
  | invalidBusinessState
  | customerNotFound (cid : ℕ)
  | b2bMissingGstin
  | gstinStateMismatch
  | b2cHasGstin
  | placeOfSupplyMismatch
  | productNotFound (pid : ℕ)
  | invalidGstRate
  | invalidHsn
  | negativePrice
  | insufficientStock (pid : ℕ)
  | totalsMismatch
deriving DecidableEq, Repr

/-- Spec taxonomy kind of each `create_invoice` failure (HTTP 404 for the
missing customer/product, HTTP 400 otherwise; the stock shortfall is the
spec's INSUFFICIENT_RESOURCE). -/
def CreateErr.kind : CreateErr → ErrKind
  | .customerNotFound _ => .notFound
  | .productNotFound _ => .notFound
  | .insufficientStock _ => .insufficientResource
  | _ => .validation

/-- `schemas/invoice.py` `InvoiceItemCreate`. -/
structure InvoiceItemCreate where
  product_id : ℕ
  quantity : ℤ
  description : Option String
deriving DecidableEq, Repr

/-- `schemas/invoice.py` `InvoiceTotalsInput` (asserted totals in rupees,
exact decimals embedded as rationals). -/
structure InvoiceTotalsInput where
  total_taxable_value : ℚ
  total_gst : ℚ
  grand_total : ℚ
deriving DecidableEq, Repr

/-- `schemas/invoice.py` `InvoiceCreate`. -/
structure InvoiceCreate where
  customer_id : ℕ
  invoice_date : ℤ
  place_of_supply : Option String
  items : List InvoiceItemCreate
  client_totals : Option InvoiceTotalsInput
deriving DecidableEq, Repr

/-- Committed database state relevant to the sales-invoice lifecycle:
product and customer rows keyed by primary key, the singleton business
profile, the persisted invoices, and the next invoice primary key. -/
structure SState where
  products : List (ℕ × Product)
  customers : List (ℕ × Customer)
  business : BusinessProfile
  invoices : List Invoice
  nextInvoiceId : ℕ
deriving DecidableEq, Repr

/-- Replace the first list entry satisfying `p` (SQLAlchemy's `.first()`
result is the object the service mutates). -/
def updateFirstBy {α : Type} (l : List α) (p : α → Bool) (f : α → α) : List α :=
  match l with
  | [] => []
  | x :: xs => if p x then f x :: xs else x :: updateFirstBy xs p f

/-- `db.query(Product).filter(Product.id == pid, Product.is_active == True).first()`. -/
def findActiveProduct (ps : List (ℕ × Product)) (pid : ℕ) : Option Product :=
  (ps.find? (fun e => e.1 == pid && e.2.is_active)).map (fun e => e.2)

/-- `db.query(Product).filter(Product.id == pid).first()` (no `is_active`
filter — this is the lookup `cancel_invoice` uses). -/
def findAnyProduct (ps : List (ℕ × Product)) (pid : ℕ) : Option Product :=
  (ps.find? (fun e => e.1 == pid)).map (fun e => e.2)

/-- `db.query(Customer).filter(Customer.id == cid, Customer.is_active == True).first()`. -/
def findActiveCustomer (cs : List (ℕ × Customer)) (cid : ℕ) : Option Customer :=
  (cs.find? (fun e => e.1 == cid && e.2.is_active)).map (fun e => e.2)

/-- `Product.reduce_stock` applied to the row found by the active-product
query: decrement the first matching row's stock. -/
def reduceStockFirst (ps : List (ℕ × Product)) (pid : ℕ) (qty : ℤ) :
    List (ℕ × Product) :=
  updateFirstBy ps (fun e => e.1 == pid && e.2.is_active)
    (fun e => (e.1, { e.2 with stock_quantity := e.2.stock_quantity - qty }))

/-- `invoice_service._validate_customer_for_invoice`.  Python truthiness:
`not customer.gstin` is true for both `None` and the empty string. -/
def validateCustomerForInvoice (c : Customer) : Option CreateErr :=
  if c.is_b2b then
    match c.gstin with
    | none => some .b2bMissingGstin
    | some g =>
      if g = "" then some .b2bMissingGstin
      else if extract_state_code_from_gstin g ≠ some c.state_code then
        some .gstinStateMismatch
      else none
  else
    match c.gstin with
    | none => none
    | some g => if g = "" then none else some .b2cHasGstin

/-- `invoice_service._validate_product_for_invoice`. -/
def validateProductForInvoice (p : Product) : Option CreateErr :=
  if ¬ (p.gst_rate ∈ ALLOWED_GST_RATES) then some .invalidGstRate
  else if ¬ validate_hsn_code p.hsn_code then some .invalidHsn
  else if p.price_paise < 0 then some .negativePrice
  else none

/-- The frozen `InvoiceItem` row built for one request line from the
resolved product and its computed tax breakup. -/
def mkInvoiceItem (item : InvoiceItemCreate) (product : Product)
    (tb : TaxBreakup) : InvoiceItem :=
  { product_id := some item.product_id
    product_name := product.name
    description := item.description.orElse (fun _ => product.description)
    hsn_code := product.hsn_code
    quantity := item.quantity
    unit := product.unit
    unit_price_paise := product.price_paise
    gst_rate := product.gst_rate
    taxable_amount_paise := tb.taxable_amount_paise
    cgst_paise := tb.cgst_paise
    sgst_paise := tb.sgst_paise
    igst_paise := tb.igst_paise
    gst_amount_paise := tb.total_tax_paise
    total_paise := tb.total_amount_paise }

/-- The per-item loop of `create_invoice`: validate the product, decrement
stock (`reduce_stock`), compute the line tax, and build the frozen
`InvoiceItem`; the product list is threaded through the loop. -/
def processItems (items : List InvoiceItemCreate) (ps : List (ℕ × Product))
    (sellerState buyerState : String) :
    Except CreateErr (List (ℕ × Product) × List InvoiceItem × List TaxBreakup) :=
  match items with
  | [] => .ok (ps, [], [])
  | item :: rest =>
    match findActiveProduct ps item.product_id with
    | none => .error (.productNotFound item.product_id)
    | some product =>
      match validateProductForInvoice product with
      | some e => .error e
      | none =>
        if product.stock_quantity < item.quantity then
          .error (.insufficientStock item.product_id)
        else
          match processItems rest
              (reduceStockFirst ps item.product_id item.quantity)
              sellerState buyerState with
          | .error e => .error e
          | .ok (ps3, items3, tbs3) =>
            .ok (ps3,
              mkInvoiceItem item product (calculate_line_item_tax item.quantity
                product.price_paise product.gst_rate sellerState buyerState) :: items3,
              calculate_line_item_tax item.quantity product.price_paise
                product.gst_rate sellerState buyerState :: tbs3)

/-- `invoice_service._validate_client_totals`: exact equality of the three
asserted rupee figures against the computed paise totals divided by 100;
absent totals are never checked. -/
def clientTotalsOk (ct : Option InvoiceTotalsInput) (computed : TaxBreakup) : Bool :=
  match ct with
  | none => true
  | some t =>
    decide ((computed.taxable_amount_paise : ℚ) / 100 = t.total_taxable_value ∧
      (computed.total_tax_paise : ℚ) / 100 = t.total_gst ∧
      (computed.total_amount_paise : ℚ) / 100 = t.grand_total)

/-- The invoice row assembled by `create_invoice` just before persistence:
snapshots frozen by value, totals taken field-by-field from
`aggregate_invoice_taxes`, invoice number from the allocator, `round_off`
fixed at 0. -/
def mkCreatedInvoice (st : SState) (req : InvoiceCreate) (customer : Customer)
    (invItems : List InvoiceItem) (tbs : List TaxBreakup) (now : ℕ) : Invoice :=
  { id := st.nextInvoiceId
    invoice_number := (generate_invoice_number st.business).1
    invoice_date := req.invoice_date
    place_of_supply := req.place_of_supply.getD customer.state_code
    invoice_type := "TAX_INVOICE"
    status := "FINAL"
    customer_id := req.customer_id
    customer_snapshot := createCustomerSnapshot req.customer_id customer
    business_snapshot := createBusinessSnapshot st.business
    finalized_at := some now
    subtotal_paise := (aggregate_invoice_taxes tbs).taxable_amount_paise
    cgst_paise := (aggregate_invoice_taxes tbs).cgst_paise
    sgst_paise := (aggregate_invoice_taxes tbs).sgst_paise
    igst_paise := (aggregate_invoice_taxes tbs).igst_paise
    total_paise := (aggregate_invoice_taxes tbs).total_amount_paise
    total_taxable_value_paise := (aggregate_invoice_taxes tbs).taxable_amount_paise
    total_gst_paise := (aggregate_invoice_taxes tbs).total_tax_paise
    grand_total_paise := (aggregate_invoice_taxes tbs).total_amount_paise
    round_off_paise := 0
    is_cancelled := false
    cancelled_at := none
    cancellation_reason := none
    items := invItems }

/-- `invoice_service.create_invoice` body, in the exact order of the
source: date check, business-state check, customer lookup, customer GSTIN
checks, place-of-supply check, per-item loop (stock decrement inside),
aggregation, client-totals check, invoice-number allocation, persistence. -/
def createInvoiceBody (st : SState) (req : InvoiceCreate) (today : ℤ) (now : ℕ) :
    Except CreateErr (SState × Invoice) :=
  if today < req.invoice_date then .error .futureDate
  else if st.business.state_code = "" ∨ st.business.state_code.length ≠ 2 then
    .error .invalidBusinessState
  else
    match findActiveCustomer st.customers req.customer_id with
    | none => .error (.customerNotFound req.customer_id)
    | some customer =>
      match validateCustomerForInvoice customer with
      | some e => .error e
      | none =>
        if req.place_of_supply.getD customer.state_code ≠ customer.state_code then
          .error .placeOfSupplyMismatch
        else
          match processItems req.items st.products st.business.state_code
              customer.state_code with
          | .error e => .error e
          | .ok (ps2, invItems, tbs) =>
            if ¬ clientTotalsOk req.client_totals (aggregate_invoice_taxes tbs) then
              .error .totalsMismatch
            else
              .ok ({ st with
                      products := ps2
                      business := (generate_invoice_number st.business).2
                      invoices := st.invoices ++
                        [mkCreatedInvoice st req customer invItems tbs now]
                      nextInvoiceId := st.nextInvoiceId + 1 },
                mkCreatedInvoice st req customer invItems tbs now)

/-- Result of one `create_invoice` request as observed by the caller:
committed state plus either the created invoice or the error. -/
structure CreateResult where
  state : SState
  invoice? : Option Invoice
  err? : Option CreateErr
deriving DecidableEq, Repr

/-- `create_invoice` under the session semantics of `database.get_db`:
success commits the worked state; an `HTTPException` aborts the session
without commit, so the committed state is the caller's input state. -/
def create_invoice (st : SState) (req : InvoiceCreate) (today : ℤ) (now : ℕ) :
    CreateResult :=
  match createInvoiceBody st req today now with
  | .ok r => ⟨r.1, some r.2, none⟩
  | .error e => ⟨st, none, some e⟩

/-- Errors of `invoice_service.cancel_invoice`. -/
inductive CancelErr where
  | notFound (iid : ℕ)
  | alreadyCancelled
deriving DecidableEq, Repr

/-- Spec taxonomy kind of each `cancel_invoice` failure: the double-cancel
rejection is the spec's CONFLICT (the code surfaces both as HTTP 400/404). -/
def CancelErr.kind : CancelErr → ErrKind
  | .notFound _ => .notFound
  | .alreadyCancelled => .conflict

/-- `db.query(Invoice).filter(Invoice.id == iid).first()`. -/
def findInvoice (invs : List Invoice) (iid : ℕ) : Option Invoice :=
  invs.find? (fun i => i.id == iid)

/-- The stock-restore loop of `cancel_invoice`: for each item,
`if item.product_id:` (Python truthiness: skips `None` and `0`), re-query
the product by id only (no `is_active` filter) and, when found, increment
its stock by the item's recorded quantity. -/
def restoreStep (acc : List (ℕ × Product)) (it : InvoiceItem) :
    List (ℕ × Product) :=
  match it.product_id with
  | none => acc
  | some pid =>
    if pid = 0 then acc
    else
      match findAnyProduct acc pid with
      | none => acc
      | some _ =>
        updateFirstBy acc (fun e => e.1 == pid)
          (fun e => (e.1, { e.2 with
            stock_quantity := e.2.stock_quantity + it.quantity }))

/-- The whole restore loop of `cancel_invoice`. -/
def restoreStock (ps : List (ℕ × Product)) (items : List InvoiceItem) :
    List (ℕ × Product) :=
  items.foldl restoreStep ps

/-- Net stock restored to product `pid` by cancelling an invoice with the
given items: the sum of the recorded quantities of its items referencing
`pid` (`0` is never restored to — Python falsiness of `product_id`). -/
def restoredQty (items : List InvoiceItem) (pid : ℕ) : ℤ :=
  if pid = 0 then 0
  else ((items.filter (fun it => it.product_id == some pid)).map
    (fun it => it.quantity)).sum

/-- `invoice_service.cancel_invoice` body: lookup, double-cancel guard,
stock restore, then `Invoice.cancel` plus `status = "CANCELLED"`. -/
def cancelInvoiceBody (st : SState) (iid : ℕ) (reason : String) (now : ℕ) :
    Except CancelErr (SState × Invoice) :=
  match findInvoice st.invoices iid with
  | none => .error (.notFound iid)
  | some inv =>
    if inv.is_cancelled then .error .alreadyCancelled
    else
      let ps2 := restoreStock st.products inv.items
      let inv2 := { inv with
        is_cancelled := true
        cancelled_at := some now
        cancellation_reason := some reason
        status := "CANCELLED" }
      .ok ({ st with
              products := ps2
              invoices := updateFirstBy st.invoices (fun i => i.id == iid)
                (fun _ => inv2) }, inv2)

/-- Result of one `cancel_invoice` request as observed by the caller. -/
structure CancelResult where
  state : SState
  invoice? : Option Invoice
  err? : Option CancelErr
deriving DecidableEq, Repr

/-- `cancel_invoice` under the session semantics of `database.get_db`
(commit only at the end; exceptions roll back). -/
def cancel_invoice (st : SState) (iid : ℕ) (reason : String) (now : ℕ) :
    CancelResult :=
  match cancelInvoiceBody st iid reason now with
  | .ok r => ⟨r.1, some r.2, none⟩
  | .error e => ⟨st, none, some e⟩

/-! ### Claim C3: failed creation leaves the committed state unchanged -/

/-- C3: whenever `create_invoice` fails, the error is of kind VALIDATION,
NOT_FOUND or INSUFFICIENT_RESOURCE, and the committed state is exactly the
input state: no stock decrement, no counter increment, no invoice or item
persisted.  This includes the client-totals tamper check, which the body
reaches only after the stock decrements of the item loop — all of which
are rolled back with the session. -/
theorem c3_failed_create_changes_nothing (st : SState) (req : InvoiceCreate)
    (today : ℤ) (now : ℕ) (e : CreateErr)
    (h : (create_invoice st req today now).err? = some e) :
    (CreateErr.kind e = .validation ∨ CreateErr.kind e = .notFound ∨
      CreateErr.kind e = .insufficientResource) ∧
    (create_invoice st req today now).state = st ∧
    (create_invoice st req today now).state.products = st.products ∧
    (create_invoice st req today now).state.business.current_invoice_number =
      st.business.current_invoice_number ∧
    (create_invoice st req today now).state.invoices = st.invoices ∧
    (create_invoice st req today now).invoice? = none := by
  unfold create_invoice at h ⊢
  cases hb : createInvoiceBody st req today now with
  | ok r =>
    rw [hb] at h
    simp at h
  | error e2 =>
    rw [hb] at h
    simp at h
    subst h
    refine ⟨?_, rfl, rfl, rfl, rfl, rfl⟩
    cases e2 <;> simp [CreateErr.kind]

/-- C3 witness: a request for a customer id that does not exist fails with
NOT_FOUND and leaves the concrete state untouched. -/
theorem c3_failed_create_changes_nothing_witness :
    (create_invoice
        { products := []
          customers := []
          business :=
            { id := 1
              name := "B"
              gstin := "29ABCDE1234F1Z5"
              state_code := "29"
              address := "a"
              city := "c"
              pincode := "560001"
              phone := none
              email := none
              invoicePrefix := "INV"
              invoice_start_number := 1
              current_invoice_number := 7 }
          invoices := []
          nextInvoiceId := 1 }
        { customer_id := 3
          invoice_date := 0
          place_of_supply := none
          items := []
          client_totals := none } 0 0).state.business.current_invoice_number = 7 :=
  (c3_failed_create_changes_nothing _ _ 0 0 (.customerNotFound 3)
      (by decide)).2.2.2.1

/-- Inversion of a successful `createInvoiceBody` run: a success passes
through the customer lookup, the item loop and the client-totals check,
and the persisted invoice carries exactly the aggregated totals. -/
theorem createInvoiceBody_ok_inv (st : SState) (req : InvoiceCreate)
    (today : ℤ) (now : ℕ) (st2 : SState) (inv : Invoice)
    (h : createInvoiceBody st req today now = .ok (st2, inv)) :
    ∃ customer ps2 invItems tbs,
      findActiveCustomer st.customers req.customer_id = some customer ∧
      processItems req.items st.products st.business.state_code
        customer.state_code = .ok (ps2, invItems, tbs) ∧
      clientTotalsOk req.client_totals (aggregate_invoice_taxes tbs) = true ∧
      inv.items = invItems ∧
      inv.subtotal_paise = (aggregate_invoice_taxes tbs).taxable_amount_paise ∧
      inv.cgst_paise = (aggregate_invoice_taxes tbs).cgst_paise ∧
      inv.sgst_paise = (aggregate_invoice_taxes tbs).sgst_paise ∧
      inv.igst_paise = (aggregate_invoice_taxes tbs).igst_paise ∧
      inv.total_paise = (aggregate_invoice_taxes tbs).total_amount_paise ∧
      inv.total_taxable_value_paise = (aggregate_invoice_taxes tbs).taxable_amount_paise ∧
      inv.total_gst_paise = (aggregate_invoice_taxes tbs).total_tax_paise ∧
      inv.grand_total_paise = (aggregate_invoice_taxes tbs).total_amount_paise := by
  unfold createInvoiceBody at h
  split at h
  · simp at h
  · split at h
    · simp at h
    · split at h
      · simp at h
      · rename_i customer hcust
        split at h
        · simp at h
        · rename_i hvc
          split at h
          · simp at h
          · rename_i hpos
            split at h
            · simp at h
            · rename_i ps2 invItems tbs hpi
              split at h
              · simp at h
              · rename_i hct
                have hctrue : clientTotalsOk req.client_totals
                    (aggregate_invoice_taxes tbs) = true := by
                  simpa using hct
                simp only [Except.ok.injEq, Prod.mk.injEq] at h
                obtain ⟨hst2, hinv⟩ := h
                subst hinv
                exact ⟨customer, ps2, invItems, tbs, hcust, hpi, hctrue,
                  rfl, rfl, rfl, rfl, rfl, rfl, rfl, rfl, rfl⟩

/-- Both branches of `calculate_gst` set `total_tax = cgst + sgst + igst`
and `total_amount = taxable + total_tax`. -/
theorem calculate_gst_totals (a : ℤ) (r : ℚ) (s b : String) :
    (calculate_gst a r s b).total_tax_paise =
      (calculate_gst a r s b).cgst_paise + (calculate_gst a r s b).sgst_paise +
        (calculate_gst a r s b).igst_paise ∧
    (calculate_gst a r s b).total_amount_paise =
      (calculate_gst a r s b).taxable_amount_paise +
        (calculate_gst a r s b).total_tax_paise := by
  by_cases hsb : s = b
  · simp [calculate_gst, hsb]
    ring
  · simp [calculate_gst, hsb]

/-- The item rows built by the `create_invoice` loop store exactly the
per-line tax-breakup components, and every breakup in the list satisfies
the `calculate_gst` total identities. -/
theorem processItems_fields (items : List InvoiceItemCreate)
    (ps : List (ℕ × Product)) (seller buyer : String)
    (ps2 : List (ℕ × Product)) (its : List InvoiceItem) (tbs : List TaxBreakup)
    (h : processItems items ps seller buyer = .ok (ps2, its, tbs)) :
    its.map (fun it => it.taxable_amount_paise) =
      tbs.map (fun t => t.taxable_amount_paise) ∧
    its.map (fun it => it.cgst_paise) = tbs.map (fun t => t.cgst_paise) ∧
    its.map (fun it => it.sgst_paise) = tbs.map (fun t => t.sgst_paise) ∧
    its.map (fun it => it.igst_paise) = tbs.map (fun t => t.igst_paise) ∧
    its.map (fun it => it.gst_amount_paise) = tbs.map (fun t => t.total_tax_paise) ∧
    its.map (fun it => it.total_paise) = tbs.map (fun t => t.total_amount_paise) ∧
    (∀ tb ∈ tbs,
      tb.total_tax_paise = tb.cgst_paise + tb.sgst_paise + tb.igst_paise ∧
      tb.total_amount_paise = tb.taxable_amount_paise + tb.total_tax_paise) := by
  induction items generalizing ps ps2 its tbs with
  | nil =>
    unfold processItems at h
    simp only [Except.ok.injEq, Prod.mk.injEq] at h
    obtain ⟨-, hits, htbs⟩ := h
    subst hits
    subst htbs
    simp
  | cons item rest ih =>
    unfold processItems at h
    split at h
    · simp at h
    · rename_i product hfind
      split at h
      · simp at h
      · split at h
        · simp at h
        · split at h
          · simp at h
          · rename_i ps3 its3 tbs3 hrec
            simp only [Except.ok.injEq, Prod.mk.injEq] at h
            obtain ⟨-, hits, htbs⟩ := h
            subst hits
            subst htbs
            obtain ⟨e1, e2, e3, e4, e5, e6, e7⟩ :=
              ih _ _ _ _ hrec
            refine ⟨?_, ?_, ?_, ?_, ?_, ?_, ?_⟩
            · simpa [mkInvoiceItem] using e1
            · simpa [mkInvoiceItem] using e2
            · simpa [mkInvoiceItem] using e3
            · simpa [mkInvoiceItem] using e4
            · simpa [mkInvoiceItem] using e5
            · simpa [mkInvoiceItem] using e6
            · intro tb htb
              rcases List.mem_cons.mp htb with heq | hmem
              · subst heq
                exact calculate_gst_totals _ _ _ _
              · exact e7 tb hmem

/-- Summing the per-line `total_tax` equals the sum of the three summed
components, when each line satisfies the `calculate_gst` identity. -/
theorem sum_map_total_tax (tbs : List TaxBreakup)
    (h : ∀ tb ∈ tbs,
      tb.total_tax_paise = tb.cgst_paise + tb.sgst_paise + tb.igst_paise) :
    (tbs.map (fun t => t.total_tax_paise)).sum =
      (tbs.map (fun t => t.cgst_paise)).sum +
        (tbs.map (fun t => t.sgst_paise)).sum +
        (tbs.map (fun t => t.igst_paise)).sum := by
  induction tbs with
  | nil => simp
  | cons t ts ih =>
    simp only [List.map_cons, List.sum_cons]
    rw [h t (List.mem_cons_self t ts), ih (fun tb htb => h tb (List.mem_cons_of_mem t htb))]
    ring

/-- Summing the per-line `total_amount` equals summed taxable plus summed
tax, when each line satisfies the `calculate_gst` identity. -/
theorem sum_map_total_amount (tbs : List TaxBreakup)
    (h : ∀ tb ∈ tbs,
      tb.total_amount_paise = tb.taxable_amount_paise + tb.total_tax_paise) :
    (tbs.map (fun t => t.total_amount_paise)).sum =
      (tbs.map (fun t => t.taxable_amount_paise)).sum +
        (tbs.map (fun t => t.total_tax_paise)).sum := by
  induction tbs with
  | nil => simp
  | cons t ts ih =>
    simp only [List.map_cons, List.sum_cons]
    rw [h t (List.mem_cons_self t ts), ih (fun tb htb => h tb (List.mem_cons_of_mem t htb))]
    ring

/-! ### Claim C2: invoice totals are plain sums of per-line components -/

/-- C2: every invoice persisted by `create_invoice` carries totals that
are the exact component-wise integer sums of its already-rounded per-line
stored amounts — subtotal, cgst, sgst, igst, total GST and grand total are
summations, with no re-rounding and no re-derivation from the combined
taxable total. -/
theorem c2_invoice_totals_are_sums (st : SState) (req : InvoiceCreate)
    (today : ℤ) (now : ℕ) (inv : Invoice)
    (h : (create_invoice st req today now).invoice? = some inv) :
    inv.subtotal_paise = (inv.items.map (fun it => it.taxable_amount_paise)).sum ∧
    inv.cgst_paise = (inv.items.map (fun it => it.cgst_paise)).sum ∧
    inv.sgst_paise = (inv.items.map (fun it => it.sgst_paise)).sum ∧
    inv.igst_paise = (inv.items.map (fun it => it.igst_paise)).sum ∧
    inv.total_gst_paise = (inv.items.map (fun it => it.gst_amount_paise)).sum ∧
    inv.grand_total_paise = (inv.items.map (fun it => it.total_paise)).sum ∧
    inv.total_taxable_value_paise = inv.subtotal_paise ∧
    inv.total_gst_paise = inv.cgst_paise + inv.sgst_paise + inv.igst_paise ∧
    inv.grand_total_paise = inv.subtotal_paise + inv.total_gst_paise ∧
    inv.total_paise = inv.grand_total_paise := by
  unfold create_invoice at h
  cases hb : createInvoiceBody st req today now with
  | error e =>
    rw [hb] at h
    simp at h
  | ok r =>
    rw [hb] at h
    simp only [Option.some.injEq] at h
    obtain ⟨customer, ps2, invItems, tbs, -, hpi, -, hitems, h1, h2, h3, h4, h5, h6, h7, h8⟩ :=
      createInvoiceBody_ok_inv st req today now r.1 r.2 hb
    subst h
    obtain ⟨e1, e2, e3, e4, e5, e6, e7⟩ := processItems_fields _ _ _ _ _ _ _ hpi
    have htax : ∀ tb ∈ tbs,
        tb.total_tax_paise = tb.cgst_paise + tb.sgst_paise + tb.igst_paise :=
      fun tb htb => (e7 tb htb).1
    have hamt : ∀ tb ∈ tbs,
        tb.total_amount_paise = tb.taxable_amount_paise + tb.total_tax_paise :=
      fun tb htb => (e7 tb htb).2
    rw [hitems] at *
    refine ⟨?_, ?_, ?_, ?_, ?_, ?_, ?_, ?_, ?_, ?_⟩
    · rw [h1, e1]
      simp [aggregate_invoice_taxes]
    · rw [h2, e2]
      simp [aggregate_invoice_taxes]
    · rw [h3, e3]
      simp [aggregate_invoice_taxes]
    · rw [h4, e4]
      simp [aggregate_invoice_taxes]
    · rw [h7, e5, sum_map_total_tax tbs htax]
      simp [aggregate_invoice_taxes]
    · rw [h8, e6, sum_map_total_amount tbs hamt, sum_map_total_tax tbs htax]
      simp [aggregate_invoice_taxes]
      ring
    · rw [h6, h1]
    · rw [h7, h2, h3, h4]
      simp [aggregate_invoice_taxes]
    · rw [h8, h1, h7]
      simp [aggregate_invoice_taxes]
      ring
    · rw [h5, h8]

/-- Witness scenario: an active product (id 5) with price 1000 paise, GST
18, HSN 1234, stock 10. -/
def wProduct : Product :=
  { name := "Widget"
    description := none
    hsn_code := "1234"
    gst_rate := 18
    price_paise := 1000
    stock_quantity := 10
    unit := "PCS"
    is_active := true }

/-- Witness scenario: an active B2C customer (id 3) in state 29. -/
def wCustomer : Customer :=
  { name := "Alice"
    customer_type := "B2C"
    gstin := none
    address := "Addr"
    state := "Karnataka"
    state_code := "29"
    phone := none
    email := none
    is_active := true }

/-- Witness scenario: the business profile, state 29, counter at 7. -/
def wBusiness : BusinessProfile :=
  { id := 1
    name := "Biz"
    gstin := "29ABCDE1234F1Z5"
    state_code := "29"
    address := "Addr"
    city := "Bengaluru"
    pincode := "560001"
    phone := none
    email := none
    invoicePrefix := "INV"
    invoice_start_number := 1
    current_invoice_number := 7 }

/-- Witness scenario: the committed state before the request. -/
def wState : SState :=
  { products := [(5, wProduct)]
    customers := [(3, wCustomer)]
    business := wBusiness
    invoices := []
    nextInvoiceId := 1 }

/-- Witness scenario: one line of quantity 2 for product 5. -/
def wItemReq : InvoiceItemCreate :=
  { product_id := 5
    quantity := 2
    description := none }

/-- Witness scenario: the request, without asserted client totals. -/
def wReq : InvoiceCreate :=
  { customer_id := 3
    invoice_date := 0
    place_of_supply := none
    items := [wItemReq]
    client_totals := none }

/-- Witness scenario: the single line's tax breakup (2 × 1000 paise at 18%
intra-state). -/
def wTb : TaxBreakup :=
  calculate_line_item_tax 2 1000 18 "29" "29"

/-- Witness scenario: the invoice `create_invoice` persists for `wReq`. -/
def wInvoice : Invoice :=
  mkCreatedInvoice wState wReq wCustomer [mkInvoiceItem wItemReq wProduct wTb] [wTb] 0

/-- The witness run succeeds and persists exactly `wInvoice` (the control
flow of `create_invoice` is fully determined by decidable tests on
integers and strings; the tax values stay symbolic). -/
theorem create_invoice_wReq_eval :
    (create_invoice wState wReq 0 0).invoice? = some wInvoice :=
  rfl

/-- C2 witness: the sum identities instantiated on the concrete invoice
persisted in the witness scenario. -/
theorem c2_invoice_totals_are_sums_witness :
    wInvoice.subtotal_paise =
      (wInvoice.items.map (fun it => it.taxable_amount_paise)).sum ∧
    wInvoice.cgst_paise = (wInvoice.items.map (fun it => it.cgst_paise)).sum ∧
    wInvoice.sgst_paise = (wInvoice.items.map (fun it => it.sgst_paise)).sum ∧
    wInvoice.igst_paise = (wInvoice.items.map (fun it => it.igst_paise)).sum ∧
    wInvoice.total_gst_paise =
      (wInvoice.items.map (fun it => it.gst_amount_paise)).sum ∧
    wInvoice.grand_total_paise =
      (wInvoice.items.map (fun it => it.total_paise)).sum ∧
    wInvoice.total_taxable_value_paise = wInvoice.subtotal_paise ∧
    wInvoice.total_gst_paise =
      wInvoice.cgst_paise + wInvoice.sgst_paise + wInvoice.igst_paise ∧
    wInvoice.grand_total_paise = wInvoice.subtotal_paise + wInvoice.total_gst_paise ∧
    wInvoice.total_paise = wInvoice.grand_total_paise :=
  c2_invoice_totals_are_sums wState wReq 0 0 wInvoice create_invoice_wReq_eval

/-! ### Claim C7: exact-equality tamper check on client totals -/

/-- C7: `_validate_client_totals` never fires when `client_totals` is
omitted; when supplied, it passes exactly when the three asserted rupee
figures equal the computed paise totals divided by 100 (exact equality, no
tolerance — so any difference, including one paise = 0.01 rupees, rejects);
and every invoice `create_invoice` actually persists with supplied totals
satisfies those exact equalities. -/
theorem c7_client_totals_exactness (t : InvoiceTotalsInput)
    (computed : TaxBreakup) (st : SState) (req : InvoiceCreate)
    (today : ℤ) (now : ℕ) (inv : Invoice) :
    clientTotalsOk none computed = true ∧
    (clientTotalsOk (some t) computed = true ↔
      ((computed.taxable_amount_paise : ℚ) / 100 = t.total_taxable_value ∧
       (computed.total_tax_paise : ℚ) / 100 = t.total_gst ∧
       (computed.total_amount_paise : ℚ) / 100 = t.grand_total)) ∧
    ((create_invoice st req today now).invoice? = some inv →
      req.client_totals = some t →
      ((inv.total_taxable_value_paise : ℚ) / 100 = t.total_taxable_value ∧
       (inv.total_gst_paise : ℚ) / 100 = t.total_gst ∧
       (inv.grand_total_paise : ℚ) / 100 = t.grand_total)) := by
  refine ⟨rfl, by simp [clientTotalsOk], ?_⟩
  intro h hct
  unfold create_invoice at h
  cases hb : createInvoiceBody st req today now with
  | error e =>
    rw [hb] at h
    simp at h
  | ok r =>
    rw [hb] at h
    simp only [Option.some.injEq] at h
    obtain ⟨customer, ps2, invItems, tbs, -, -, hcl, -, -, -, -, -, -, h6, h7, h8⟩ :=
      createInvoiceBody_ok_inv st req today now r.1 r.2 hb
    subst h
    rw [hct] at hcl
    simp only [clientTotalsOk] at hcl
    obtain ⟨ha, hg, hgr⟩ := of_decide_eq_true hcl
    refine ⟨?_, ?_, ?_⟩
    · rw [h6]
      exact ha
    · rw [h7]
      exact hg
    · rw [h8]
      exact hgr

/-- C7 witness: on the computed breakup (2000, 360, 2360 paise), the exact
asserted totals (20, 3.60, 23.60 rupees) pass, and a grand total off by a
single paise (23.61) is rejected. -/
theorem c7_client_totals_exactness_witness :
    clientTotalsOk (some ⟨20, 18/5, 118/5⟩) ⟨2000, 180, 180, 0, 360, 2360⟩ = true ∧
    clientTotalsOk (some ⟨20, 18/5, 2361/100⟩) ⟨2000, 180, 180, 0, 360, 2360⟩ ≠ true := by
  constructor
  · exact (c7_client_totals_exactness ⟨20, 18/5, 118/5⟩ ⟨2000, 180, 180, 0, 360, 2360⟩
      wState wReq 0 0 wInvoice).2.1.mpr (by norm_num)
  · intro hcontra
    have h3 := (c7_client_totals_exactness ⟨20, 18/5, 2361/100⟩
      ⟨2000, 180, 180, 0, 360, 2360⟩ wState wReq 0 0 wInvoice).2.1.mp hcontra
    norm_num at h3

/-! ### Stock-restore lemmas for cancellation -/

/-- Updating the first `p`-entry with a `p`-preserving function commutes
with `find? p`. -/
theorem find?_updateFirstBy_self {α : Type} (l : List α) (p : α → Bool)
    (f : α → α) (hpf : ∀ x, p x = true → p (f x) = true) :
    (updateFirstBy l p f).find? p = (l.find? p).map f := by
  induction l with
  | nil => simp [updateFirstBy]
  | cons x xs ih =>
    by_cases hx : p x = true
    · simp [updateFirstBy, hx, List.find?_cons_of_pos, hpf x hx]
    · have hx2 : p x = false := by
        cases hp : p x
        · rfl
        · exact absurd hp hx
      simp [updateFirstBy, hx2, List.find?_cons_of_neg, ih]

/-- Updating the first `p2`-entry does not change `find? p1` when `p1` is
invariant under the update and disjoint from `p2`. -/
theorem find?_updateFirstBy_disjoint {α : Type} (l : List α)
    (p1 p2 : α → Bool) (f : α → α) (hpres : ∀ x, p1 (f x) = p1 x)
    (hdis : ∀ x, p2 x = true → p1 x = false) :
    (updateFirstBy l p2 f).find? p1 = l.find? p1 := by
  induction l with
  | nil => simp [updateFirstBy]
  | cons x xs ih =>
    by_cases hx : p2 x = true
    · have h1 : p1 x = false := hdis x hx
      have h2 : p1 (f x) = false := by rw [hpres]; exact h1
      simp [updateFirstBy, hx, List.find?_cons_of_neg, h1, h2]
    · have hx2 : p2 x = false := by
        cases hp : p2 x
        · rfl
        · exact absurd hp hx
      by_cases h1 : p1 x = true
      · simp [updateFirstBy, hx2, List.find?_cons_of_pos, h1]
      · have h12 : p1 x = false := by
          cases hp : p1 x
          · rfl
          · exact absurd hp h1
        simp [updateFirstBy, hx2, List.find?_cons_of_neg, h12, ih]

/-- `restoredQty` over a cons. -/
theorem restoredQty_cons (it : InvoiceItem) (rest : List InvoiceItem) (pid : ℕ) :
    restoredQty (it :: rest) pid =
      (if it.product_id == some pid ∧ pid ≠ 0 then it.quantity else 0) +
        restoredQty rest pid := by
  unfold restoredQty
  by_cases hz : pid = 0
  · simp [hz]
  · simp only [hz, if_neg, ite_false]
    by_cases hit : it.product_id == some pid
    · simp [List.filter_cons, hit, hz]
    · simp only [List.filter_cons]
      rw [if_neg (by simp [hit])]
      simp [hit, hz]

/-- Effect of one restore step on the by-id lookup: the referenced product
(if any, and not id 0) gains the item's quantity; all other lookups are
unchanged. -/
theorem restoreStep_find (ps : List (ℕ × Product)) (it : InvoiceItem) (pid : ℕ) :
    findAnyProduct (restoreStep ps it) pid =
      (findAnyProduct ps pid).map
        (fun p => { p with stock_quantity := p.stock_quantity +
          (if it.product_id == some pid ∧ pid ≠ 0 then it.quantity else 0) }) := by
  unfold restoreStep
  cases hpidit : it.product_id with
  | none =>
    cases h : findAnyProduct ps pid <;> simp [h]
  | some pid2 =>
    dsimp only
    by_cases hz : pid2 = 0
    · subst hz
      have hcnot : ¬((0:ℕ) = pid ∧ ¬pid = 0) := by omega
      rw [if_pos rfl]
      cases h : findAnyProduct ps pid <;> simp [h, hcnot]
    · rw [if_neg hz]
      cases hf : findAnyProduct ps pid2 with
      | none =>
        by_cases hpp : pid = pid2
        · subst hpp
          rw [hf]
          simp [hf]
        · cases h : findAnyProduct ps pid <;> simp [h, Ne.symm hpp]
      | some p2 =>
        dsimp only
        by_cases hpp : pid = pid2
        · subst hpp
          have hupd := find?_updateFirstBy_self ps (fun e => e.1 == pid)
            (fun e => (e.1, { e.2 with
              stock_quantity := e.2.stock_quantity + it.quantity }))
            (by intro x hx; simpa using hx)
          simp only [findAnyProduct] at *
          rw [hupd]
          cases hq : ps.find? (fun e => e.1 == pid) <;> simp [hq, hz]
        · have hupd := find?_updateFirstBy_disjoint ps (fun e => e.1 == pid)
            (fun e => e.1 == pid2)
            (fun e => (e.1, { e.2 with
              stock_quantity := e.2.stock_quantity + it.quantity }))
            (by intro x; rfl)
            (by
              intro x hx
              simp only [beq_iff_eq] at hx
              simp [beq_eq_false_iff_ne, hx, Ne.symm hpp])
          simp only [findAnyProduct] at *
          rw [hupd]
          cases hq : ps.find? (fun e => e.1 == pid) <;> simp [hq, Ne.symm hpp]

/-- Effect of the whole restore loop on the by-id lookup: each product
gains exactly the summed quantities of the cancelled items referencing it. -/
theorem restoreStock_find (items : List InvoiceItem) :
    ∀ (ps : List (ℕ × Product)) (pid : ℕ),
      findAnyProduct (restoreStock ps items) pid =
        (findAnyProduct ps pid).map
          (fun p => { p with
            stock_quantity := p.stock_quantity + restoredQty items pid }) := by
  induction items with
  | nil =>
    intro ps pid
    unfold restoreStock restoredQty
    cases h : findAnyProduct ps pid <;> simp [h]
  | cons it rest ih =>
    intro ps pid
    have hstep : restoreStock ps (it :: rest) = restoreStock (restoreStep ps it) rest := rfl
    rw [hstep, ih (restoreStep ps it) pid, restoreStep_find ps it pid, restoredQty_cons]
    cases h : findAnyProduct ps pid <;> simp [h]
    omega

/-- `updateFirstBy` never adds or removes rows. -/
theorem updateFirstBy_length {α : Type} (l : List α) (p : α → Bool) (f : α → α) :
    (updateFirstBy l p f).length = l.length := by
  induction l with
  | nil => rfl
  | cons x xs ih =>
    by_cases hx : p x = true
    · simp [updateFirstBy, hx]
    · have hx2 : p x = false := by
        cases hp : p x
        · rfl
        · exact absurd hp hx
      simp [updateFirstBy, hx2, ih]

/-! ### Claim C8: cancellation restores stock and is idempotent-rejecting -/

/-- C8: cancelling an existing non-cancelled invoice succeeds; every
product row that still resolves by id receives exactly the summed recorded
quantities of the invoice's items referencing it (items whose product no
longer exists restore nothing); the invoice is kept — updated in place to
CANCELLED with timestamp and reason, items intact, no row deleted.  A
second cancel of the same invoice fails with the CONFLICT-kind error and
leaves the state untouched. -/
theorem c8_cancel_restores_and_rejects_twice (st : SState) (iid : ℕ)
    (reason : String) (now : ℕ) (inv : Invoice) :
    (findInvoice st.invoices iid = some inv → inv.is_cancelled = false →
      (cancel_invoice st iid reason now).err? = none ∧
      (∀ pid, findAnyProduct (cancel_invoice st iid reason now).state.products pid =
        (findAnyProduct st.products pid).map
          (fun p => { p with
            stock_quantity := p.stock_quantity + restoredQty inv.items pid })) ∧
      findInvoice (cancel_invoice st iid reason now).state.invoices iid =
        some { inv with
          is_cancelled := true
          cancelled_at := some now
          cancellation_reason := some reason
          status := "CANCELLED" } ∧
      (cancel_invoice st iid reason now).state.invoices.length =
        st.invoices.length) ∧
    (findInvoice st.invoices iid = some inv → inv.is_cancelled = true →
      (cancel_invoice st iid reason now).err? = some .alreadyCancelled ∧
      CancelErr.kind .alreadyCancelled = .conflict ∧
      (cancel_invoice st iid reason now).state = st) := by
  constructor
  · intro hfind hnc
    have hp := List.find?_some
      (show st.invoices.find? (fun i => i.id == iid) = some inv from hfind)
    unfold cancel_invoice cancelInvoiceBody
    rw [show findInvoice st.invoices iid = some inv from hfind]
    dsimp only
    rw [hnc]
    simp only [Bool.false_eq_true, if_false]
    refine ⟨trivial, ?_, ?_, ?_⟩
    · intro pid
      exact restoreStock_find inv.items st.products pid
    · show (updateFirstBy st.invoices (fun i => i.id == iid) _).find?
        (fun i => i.id == iid) = _
      rw [find?_updateFirstBy_self st.invoices (fun i => i.id == iid)
        (fun _ => { inv with
          is_cancelled := true
          cancelled_at := some now
          cancellation_reason := some reason
          status := "CANCELLED" })
        (fun x _ => hp)]
      rw [show st.invoices.find? (fun i => i.id == iid) = some inv from hfind]
      rfl
    · exact updateFirstBy_length st.invoices _ _
  · intro hfind hc
    unfold cancel_invoice cancelInvoiceBody
    rw [show findInvoice st.invoices iid = some inv from hfind]
    dsimp only
    rw [hc]
    simp only [if_true]
    exact ⟨trivial, rfl, trivial⟩

/-- C8/C10 witness scenario: a frozen invoice line referencing product 5
with quantity 2. -/
def wCancelItem : InvoiceItem :=
  { product_id := some 5
    product_name := "Widget"
    description := none
    hsn_code := "1234"
    quantity := 2
    unit := "PCS"
    unit_price_paise := 1000
    gst_rate := 18
    taxable_amount_paise := 2000
    cgst_paise := 180
    sgst_paise := 180
    igst_paise := 0
    gst_amount_paise := 360
    total_paise := 2360 }

/-- C8/C10 witness scenario: a FINAL (not cancelled) invoice with one item. -/
def wCancelInvoice : Invoice :=
  { id := 1
    invoice_number := "INV000007"
    invoice_date := 0
    place_of_supply := "29"
    invoice_type := "TAX_INVOICE"
    status := "FINAL"
    customer_id := 3
    customer_snapshot := createCustomerSnapshot 3 wCustomer
    business_snapshot := createBusinessSnapshot wBusiness
    finalized_at := some 0
    subtotal_paise := 2000
    cgst_paise := 180
    sgst_paise := 180
    igst_paise := 0
    total_paise := 2360
    total_taxable_value_paise := 2000
    total_gst_paise := 360
    grand_total_paise := 2360
    round_off_paise := 0
    is_cancelled := false
    cancelled_at := none
    cancellation_reason := none
    items := [wCancelItem] }

/-- C8 witness scenario: committed state holding that invoice. -/
def wCancelState : SState :=
  { products := [(5, wProduct)]
    customers := [(3, wCustomer)]
    business := wBusiness
    invoices := [wCancelInvoice]
    nextInvoiceId := 2 }

/-- C8 witness scenario: the same invoice already cancelled. -/
def wCancelledState : SState :=
  { wCancelState with
      invoices := [{ wCancelInvoice with is_cancelled := true, status := "CANCELLED" }] }

/-- C10 witness scenario: the referenced product soft-deleted. -/
def wInactiveState : SState :=
  { wCancelState with products := [(5, { wProduct with is_active := false })] }

/-! ### Claim C10: stock restore ignores the product's `is_active` flag -/

/-- C10: the stock-restore loop of `cancel_invoice` queries products by id
only, with no `is_active` filter: a product row that has been soft-deleted
(`is_active = False`) still receives the full restored quantity of every
cancelled item referencing it.  A single item referencing `pid` restores
exactly its recorded quantity. -/
theorem c10_cancel_restores_inactive_product (st : SState) (iid : ℕ)
    (reason : String) (now : ℕ) (inv : Invoice) (pid : ℕ) (p : Product)
    (hfind : findInvoice st.invoices iid = some inv)
    (hnc : inv.is_cancelled = false)
    (hprod : findAnyProduct st.products pid = some p)
    (_hinactive : p.is_active = false) :
    findAnyProduct (cancel_invoice st iid reason now).state.products pid =
      some { p with
        stock_quantity := p.stock_quantity + restoredQty inv.items pid } ∧
    (∀ it : InvoiceItem, it.product_id = some pid → pid ≠ 0 →
      restoredQty [it] pid = it.quantity) := by
  constructor
  · unfold cancel_invoice cancelInvoiceBody
    rw [show findInvoice st.invoices iid = some inv from hfind]
    dsimp only
    rw [hnc]
    simp only [Bool.false_eq_true, if_false]
    rw [show findAnyProduct (restoreStock st.products inv.items) pid =
        (findAnyProduct st.products pid).map
          (fun q => { q with
            stock_quantity := q.stock_quantity + restoredQty inv.items pid })
      from restoreStock_find inv.items st.products pid]
    rw [hprod]
    rfl
  · intro it hpid hz
    simp [restoredQty, hz, hpid]

/-- C8 witness: cancelling the concrete invoice succeeds and restores
product 5 by the invoice's quantity; cancelling the already-cancelled copy
is rejected and leaves that state unchanged. -/
theorem c8_cancel_restores_and_rejects_twice_witness :
    (cancel_invoice wCancelState 1 "mistake" 9).err? = none ∧
    findAnyProduct (cancel_invoice wCancelState 1 "mistake" 9).state.products 5 =
      (findAnyProduct wCancelState.products 5).map
        (fun p => { p with
          stock_quantity := p.stock_quantity + restoredQty wCancelInvoice.items 5 }) ∧
    (cancel_invoice wCancelledState 1 "again" 9).err? = some .alreadyCancelled ∧
    (cancel_invoice wCancelledState 1 "again" 9).state = wCancelledState := by
  refine ⟨?_, ?_, ?_, ?_⟩
  · exact ((c8_cancel_restores_and_rejects_twice wCancelState 1 "mistake" 9
      wCancelInvoice).1 (by decide) (by decide)).1
  · exact ((c8_cancel_restores_and_rejects_twice wCancelState 1 "mistake" 9
      wCancelInvoice).1 (by decide) (by decide)).2.1 5
  · exact ((c8_cancel_restores_and_rejects_twice wCancelledState 1 "again" 9
      { wCancelInvoice with is_cancelled := true, status := "CANCELLED" }).2
      (by decide) (by decide)).1
  · exact ((c8_cancel_restores_and_rejects_twice wCancelledState 1 "again" 9
      { wCancelInvoice with is_cancelled := true, status := "CANCELLED" }).2
      (by decide) (by decide)).2.2

/-- C10 witness: in the state whose product 5 is soft-deleted, cancelling
the invoice still adds the restored quantity to that inactive row. -/
theorem c10_cancel_restores_inactive_product_witness :
    findAnyProduct (cancel_invoice wInactiveState 1 "undo" 9).state.products 5 =
      some { { wProduct with is_active := false } with
        stock_quantity := ({ wProduct with is_active := false }).stock_quantity +
          restoredQty wCancelInvoice.items 5 } :=
  (c10_cancel_restores_inactive_product wInactiveState 1 "undo" 9 wCancelInvoice 5
    { wProduct with is_active := false }
    (by decide) (by decide) (by decide) (by decide)).1

/-! ### Purchase Lifecycle Manager (`app/api/purchases.py`, `app/models/purchase.py`) -/

/-- `models/purchase.py` `PurchaseItem`: per-line snapshot; `quantity` is a
float column, embedded as an exact rational. -/
structure PurchaseItemRec where
  item_name : String
  hsn_code : String
  quantity : ℚ
  rate : ℤ
  gst_rate : ℤ
  taxable_value : ℤ
  gst_amount : ℤ
  cgst_amount : ℤ
  sgst_amount : ℤ
  igst_amount : ℤ
  total_amount : ℤ
  tax_type : String
deriving DecidableEq, Repr

/-- `models/purchase.py` `PurchaseInvoice`: status is one of
`"Draft"`, `"Finalized"`, `"Cancelled"`. -/
structure PurchaseInv where
  id : ℕ
  supplier_id : ℕ
  supplier_invoice_no : String
  purchase_date : ℤ
  place_of_supply : String
  place_of_supply_code : String
  subtotal_value : ℤ
  cgst_amount : ℤ
  sgst_amount : ℤ
  igst_amount : ℤ
  total_gst : ℤ
  total_amount : ℤ
  status : String
  cancel_reason : Option String
  is_active : Bool
  finalized_at : Option ℕ
  cancelled_at : Option ℕ
  items : List PurchaseItemRec
deriving DecidableEq, Repr

/-- Committed state relevant to purchase finalization. -/
structure PState where
  products : List (ℕ × Product)
  purchases : List PurchaseInv
deriving DecidableEq, Repr

/-- `db.query(PurchaseInvoice).filter(PurchaseInvoice.id == pid).first()`. -/
def findPurchase (ps : List PurchaseInv) (pid : ℕ) : Option PurchaseInv :=
  ps.find? (fun p => p.id == pid)

/-- `db.query(Product).filter(Product.hsn_code == hsn, Product.is_active == True).first()`. -/
def findProductByHsn (prods : List (ℕ × Product)) (hsn : String) : Option Product :=
  (prods.find? (fun e => e.2.hsn_code == hsn && e.2.is_active)).map (fun e => e.2)

/-- The pre-validation loop of `finalize_purchase`: the HSN codes of all
lines whose HSN resolves to no active product (duplicates kept, order of
the items). -/
def missingHsns (prods : List (ℕ × Product)) (items : List PurchaseItemRec) :
    List String :=
  (items.filter (fun it => (findProductByHsn prods it.hsn_code).isNone)).map
    (fun it => it.hsn_code)

/-- Insertion of a string into a sorted list (for Python's `sorted`). -/
def insortStr (x : String) : List String → List String
  | [] => [x]
  | y :: ys => if x ≤ y then x :: y :: ys else y :: insortStr x ys

/-- Insertion sort on strings. -/
def sortStrs (xs : List String) : List String :=
  xs.foldr insortStr []

/-- Python's `sorted(set(xs))`. -/
def dedupSortStrs (xs : List String) : List String :=
  sortStrs xs.dedup

/-- The inventory update of one finalized line: re-query the first active
product with the line's HSN and add the integer-truncated quantity. -/
def purchaseStockStep (prods : List (ℕ × Product)) (it : PurchaseItemRec) :
    List (ℕ × Product) :=
  match prods.find? (fun e => e.2.hsn_code == it.hsn_code && e.2.is_active) with
  | none => prods
  | some _ =>
    updateFirstBy prods (fun e => e.2.hsn_code == it.hsn_code && e.2.is_active)
      (fun e => (e.1, { e.2 with
        stock_quantity := e.2.stock_quantity + pyTrunc it.quantity }))

/-- The whole inventory-update loop of `finalize_purchase`. -/
def purchaseStockFold (prods : List (ℕ × Product)) (items : List PurchaseItemRec) :
    List (ℕ × Product) :=
  items.foldl purchaseStockStep prods

/-- Net stock added for HSN `h` by finalizing the given lines: summed
integer-truncated quantities of the lines carrying that HSN. -/
def purchasedQty (items : List PurchaseItemRec) (h : String) : ℤ :=
  ((items.filter (fun it => it.hsn_code == h)).map
    (fun it => pyTrunc it.quantity)).sum

/-- One constructor per `raise HTTPException` site in `finalize_purchase`. -/
inductive FinalizeErr where
  | notFound (pid : ℕ)
  | alreadyFinalized
  | alreadyCancelled
  | missingProducts (hsns : List String)
deriving DecidableEq, Repr

/-- `finalize_purchase` body: state-machine guards, then the complete
missing-HSN pre-validation (collecting all missing codes, reported as
`sorted(set(...))`), and only then the stock increments and the status
transition. -/
def finalizePurchaseBody (st : PState) (pid : ℕ) (now : ℕ) :
    Except FinalizeErr (PState × PurchaseInv) :=
  match findPurchase st.purchases pid with
  | none => .error (.notFound pid)
  | some purchase =>
    if purchase.status = "Finalized" then .error .alreadyFinalized
    else if purchase.status = "Cancelled" then .error .alreadyCancelled
    else if missingHsns st.products purchase.items ≠ [] then
      .error (.missingProducts (dedupSortStrs (missingHsns st.products purchase.items)))
    else
      .ok ({ products := purchaseStockFold st.products purchase.items
             purchases := updateFirstBy st.purchases (fun p => p.id == pid)
               (fun _ => { purchase with
                 status := "Finalized"
                 finalized_at := some now }) },
        { purchase with status := "Finalized", finalized_at := some now })

/-- Result of one `finalize_purchase` request as observed by the caller. -/
structure FinalizeResult where
  state : PState
  purchase? : Option PurchaseInv
  err? : Option FinalizeErr
deriving DecidableEq, Repr

/-- `finalize_purchase` under the session semantics of `database.get_db`. -/
def finalize_purchase (st : PState) (pid : ℕ) (now : ℕ) : FinalizeResult :=
  match finalizePurchaseBody st pid now with
  | .ok r => ⟨r.1, some r.2, none⟩
  | .error e => ⟨st, none, some e⟩

/-- Membership is preserved by sorted insertion. -/
theorem mem_insortStr (a x : String) (l : List String) :
    a ∈ insortStr x l ↔ a = x ∨ a ∈ l := by
  induction l with
  | nil => simp [insortStr]
  | cons y ys ih =>
    unfold insortStr
    by_cases hxy : x ≤ y
    · simp [hxy]
    · simp only [if_neg hxy, List.mem_cons, ih]
      tauto

/-- Membership is preserved by insertion sort. -/
theorem mem_sortStrs (a : String) (xs : List String) :
    a ∈ sortStrs xs ↔ a ∈ xs := by
  induction xs with
  | nil => simp [sortStrs]
  | cons x ys ih =>
    unfold sortStrs at *
    simp [List.foldr_cons, mem_insortStr, ih]

/-- Membership in Python's `sorted(set(xs))` is membership in `xs`. -/
theorem mem_dedupSortStrs (a : String) (xs : List String) :
    a ∈ dedupSortStrs xs ↔ a ∈ xs := by
  unfold dedupSortStrs
  rw [mem_sortStrs, List.mem_dedup]

/-- Effect of one inventory-update step on the by-HSN lookup: the first
active product with the line's HSN gains the truncated quantity, every
other lookup is unchanged. -/
theorem purchaseStep_find (prods : List (ℕ × Product)) (it : PurchaseItemRec)
    (h : String) :
    findProductByHsn (purchaseStockStep prods it) h =
      (findProductByHsn prods h).map
        (fun p => { p with stock_quantity := p.stock_quantity +
          (if it.hsn_code == h then pyTrunc it.quantity else 0) }) := by
  unfold purchaseStockStep
  by_cases hhh : it.hsn_code = h
  · subst hhh
    cases hf : prods.find? (fun e => e.2.hsn_code == it.hsn_code && e.2.is_active) with
    | none =>
      dsimp only
      unfold findProductByHsn
      rw [hf]
      simp
    | some e0 =>
      dsimp only
      have hupd := find?_updateFirstBy_self prods
        (fun e => e.2.hsn_code == it.hsn_code && e.2.is_active)
        (fun e => (e.1, { e.2 with
          stock_quantity := e.2.stock_quantity + pyTrunc it.quantity }))
        (by intro x hx; simpa using hx)
      unfold findProductByHsn
      rw [hupd, hf]
      simp
  · cases hf : prods.find? (fun e => e.2.hsn_code == it.hsn_code && e.2.is_active) with
    | none =>
      dsimp only
      cases hq : findProductByHsn prods h <;> simp [hq, hhh]
    | some e0 =>
      dsimp only
      have hupd := find?_updateFirstBy_disjoint prods
        (fun e => e.2.hsn_code == h && e.2.is_active)
        (fun e => e.2.hsn_code == it.hsn_code && e.2.is_active)
        (fun e => (e.1, { e.2 with
          stock_quantity := e.2.stock_quantity + pyTrunc it.quantity }))
        (by intro x; rfl)
        (by
          intro x hx
          simp only [Bool.and_eq_true, beq_iff_eq] at hx
          simp [hx.1, hhh, hx.2])
      unfold findProductByHsn
      rw [hupd]
      cases hq : prods.find? (fun e => e.2.hsn_code == h && e.2.is_active) <;>
        simp [hq, hhh]

/-- Effect of the whole inventory-update loop on the by-HSN lookup. -/
theorem purchaseFold_find (items : List PurchaseItemRec) :
    ∀ (prods : List (ℕ × Product)) (h : String),
      findProductByHsn (purchaseStockFold prods items) h =
        (findProductByHsn prods h).map
          (fun p => { p with
            stock_quantity := p.stock_quantity + purchasedQty items h }) := by
  induction items with
  | nil =>
    intro prods h
    unfold purchaseStockFold purchasedQty
    cases hq : findProductByHsn prods h <;> simp [hq]
  | cons it rest ih =>
    intro prods h
    have hstep : purchaseStockFold prods (it :: rest) =
        purchaseStockFold (purchaseStockStep prods it) rest := rfl
    have hq : purchasedQty (it :: rest) h =
        (if it.hsn_code == h then pyTrunc it.quantity else 0) +
          purchasedQty rest h := by
      unfold purchasedQty
      by_cases hih : it.hsn_code == h
      · simp [List.filter_cons, hih]
      · simp only [List.filter_cons]
        rw [if_neg (by simp [hih])]
        simp [hih]
    rw [hstep, ih (purchaseStockStep prods it) h, purchaseStep_find prods it h, hq]
    cases hf : findProductByHsn prods h <;> simp [hf]
    omega

/-! ### Claim C9: purchase finalization -/

/-- C9: `finalize_purchase` rejects purchases already Finalized or
Cancelled (state untouched); when some line's HSN resolves to no active
product it fails reporting exactly the set of all missing HSN codes
(sorted, de-duplicated, not just the first) and no product's stock changes;
when every HSN resolves it adds to each first-matching active product the
summed integer-truncated quantities of its lines and marks the purchase
Finalized with a timestamp. -/
theorem c9_finalize_purchase_behavior (st : PState) (pid : ℕ) (now : ℕ)
    (purchase : PurchaseInv)
    (hfind : findPurchase st.purchases pid = some purchase) :
    (purchase.status = "Finalized" →
      (finalize_purchase st pid now).err? = some .alreadyFinalized ∧
      (finalize_purchase st pid now).state = st) ∧
    (purchase.status = "Cancelled" →
      (finalize_purchase st pid now).err? = some .alreadyCancelled ∧
      (finalize_purchase st pid now).state = st) ∧
    (purchase.status ≠ "Finalized" → purchase.status ≠ "Cancelled" →
      missingHsns st.products purchase.items ≠ [] →
      (finalize_purchase st pid now).err? =
        some (.missingProducts
          (dedupSortStrs (missingHsns st.products purchase.items))) ∧
      (finalize_purchase st pid now).state = st ∧
      (∀ h, h ∈ dedupSortStrs (missingHsns st.products purchase.items) ↔
        ∃ it ∈ purchase.items, it.hsn_code = h ∧
          findProductByHsn st.products h = none)) ∧
    (purchase.status ≠ "Finalized" → purchase.status ≠ "Cancelled" →
      missingHsns st.products purchase.items = [] →
      (finalize_purchase st pid now).err? = none ∧
      (∀ h, findProductByHsn (finalize_purchase st pid now).state.products h =
        (findProductByHsn st.products h).map
          (fun p => { p with
            stock_quantity := p.stock_quantity + purchasedQty purchase.items h })) ∧
      findPurchase (finalize_purchase st pid now).state.purchases pid =
        some { purchase with status := "Finalized", finalized_at := some now }) := by
  have hp := List.find?_some
    (show st.purchases.find? (fun p => p.id == pid) = some purchase from hfind)
  refine ⟨?_, ?_, ?_, ?_⟩
  · intro h1
    unfold finalize_purchase finalizePurchaseBody
    rw [show findPurchase st.purchases pid = some purchase from hfind]
    dsimp only
    rw [if_pos h1]
    exact ⟨rfl, rfl⟩
  · intro h1
    unfold finalize_purchase finalizePurchaseBody
    rw [show findPurchase st.purchases pid = some purchase from hfind]
    dsimp only
    rw [if_neg (by simp [h1]), if_pos h1]
    exact ⟨rfl, rfl⟩
  · intro hs1 hs2 hmiss
    unfold finalize_purchase finalizePurchaseBody
    rw [show findPurchase st.purchases pid = some purchase from hfind]
    dsimp only
    rw [if_neg hs1, if_neg hs2, if_pos hmiss]
    refine ⟨rfl, rfl, ?_⟩
    intro h
    rw [mem_dedupSortStrs]
    unfold missingHsns
    simp only [List.mem_map, List.mem_filter, Option.isNone_iff_eq_none]
    constructor
    · rintro ⟨it, ⟨hmem, hnone⟩, hh⟩
      refine ⟨it, hmem, hh, ?_⟩
      rw [← hh]
      exact hnone
    · rintro ⟨it, hmem, hh, hnone⟩
      refine ⟨it, ⟨hmem, ?_⟩, hh⟩
      rw [hh]
      exact hnone
  · intro hs1 hs2 hmiss
    unfold finalize_purchase finalizePurchaseBody
    rw [show findPurchase st.purchases pid = some purchase from hfind]
    dsimp only
    rw [if_neg hs1, if_neg hs2, if_neg (by simp [hmiss])]
    refine ⟨rfl, ?_, ?_⟩
    · intro h
      exact purchaseFold_find purchase.items st.products h
    · show (updateFirstBy st.purchases (fun p => p.id == pid) _).find?
        (fun p => p.id == pid) = _
      rw [find?_updateFirstBy_self st.purchases (fun p => p.id == pid)
        (fun _ => { purchase with status := "Finalized", finalized_at := some now })
        (fun x _ => hp)]
      rw [show st.purchases.find? (fun p => p.id == pid) = some purchase from hfind]
      rfl

/-- C9 witness scenario: one Draft purchase line of HSN 1234, quantity 3. -/
def wPurchItem : PurchaseItemRec :=
  { item_name := "Raw"
    hsn_code := "1234"
    quantity := 3
    rate := 500
    gst_rate := 18
    taxable_value := 1500
    gst_amount := 270
    cgst_amount := 135
    sgst_amount := 135
    igst_amount := 0
    total_amount := 1770
    tax_type := "CGST_SGST" }

/-- C9 witness scenario: the Draft purchase invoice. -/
def wPurchase : PurchaseInv :=
  { id := 1
    supplier_id := 2
    supplier_invoice_no := "S-1"
    purchase_date := 5
    place_of_supply := "Karnataka"
    place_of_supply_code := "29"
    subtotal_value := 1500
    cgst_amount := 135
    sgst_amount := 135
    igst_amount := 0
    total_gst := 270
    total_amount := 1770
    status := "Draft"
    cancel_reason := none
    is_active := true
    finalized_at := none
    cancelled_at := none
    items := [wPurchItem] }

/-- C9 witness scenario: state with a matching active product for the HSN. -/
def wPState : PState :=
  { products := [(5, wProduct)]
    purchases := [wPurchase] }

/-- C9 witness scenario: state with no product at all for the HSN. -/
def wPStateMissing : PState :=
  { products := []
    purchases := [wPurchase] }

/-- C9 witness: finalizing the Draft purchase succeeds, adds the truncated
quantity to the matching product and marks the purchase Finalized; in the
state without a matching product it is rejected with the complete missing
HSN list and no state change. -/
theorem c9_finalize_purchase_behavior_witness :
    (finalize_purchase wPState 1 7).err? = none ∧
    findProductByHsn (finalize_purchase wPState 1 7).state.products "1234" =
      (findProductByHsn wPState.products "1234").map
        (fun p => { p with
          stock_quantity := p.stock_quantity + purchasedQty wPurchase.items "1234" }) ∧
    findPurchase (finalize_purchase wPState 1 7).state.purchases 1 =
      some { wPurchase with status := "Finalized", finalized_at := some 7 } ∧
    (finalize_purchase wPStateMissing 1 7).err? =
      some (.missingProducts
        (dedupSortStrs (missingHsns wPStateMissing.products wPurchase.items))) ∧
    (finalize_purchase wPStateMissing 1 7).state = wPStateMissing := by
  refine ⟨?_, ?_, ?_, ?_, ?_⟩
  · exact ((c9_finalize_purchase_behavior wPState 1 7 wPurchase
      (by decide)).2.2.2 (by decide) (by decide) (by decide)).1
  · exact ((c9_finalize_purchase_behavior wPState 1 7 wPurchase
      (by decide)).2.2.2 (by decide) (by decide) (by decide)).2.1 "1234"
  · exact ((c9_finalize_purchase_behavior wPState 1 7 wPurchase
      (by decide)).2.2.2 (by decide) (by decide) (by decide)).2.2
  · exact ((c9_finalize_purchase_behavior wPStateMissing 1 7 wPurchase
      (by decide)).2.2.1 (by decide) (by decide) (by decide)).1
  · exact ((c9_finalize_purchase_behavior wPStateMissing 1 7 wPurchase
      (by decide)).2.2.1 (by decide) (by decide) (by decide)).2.1

/-! ### Report Aggregator: `report_service.generate_gst_summary`

The Python function filters sales by `Invoice.status == 'FINAL'` (the
sales status domain) but filters purchases by
`PurchaseInvoice.status == 'FINAL'`, although the purchase status domain
is `"Draft" / "Finalized" / "Cancelled"` (model comment and the values
written by `create_purchase_invoice`, `finalize_purchase`,
`cancel_purchase`).  Float accumulation is embedded as exact rational
arithmetic, `inv.total_gst_rupees` as `total_gst_paise / 100`; the model
charitably reads `purchase.total_gst_rupees` as `total_gst / 100` even
though `PurchaseInvoice` defines no such property (the attribute access
would raise if the filter ever matched). -/

/-- Python `round(x, 2)` embedded exactly: half-even at two decimals. -/
def round2 (q : ℚ) : ℚ :=
  (roundHalfEven (q * 100) : ℚ) / 100

/-- Result shape of the GST summary (monetary figures in rupees). -/
structure GSTSummary where
  output_cgst : ℚ
  output_sgst : ℚ
  output_igst : ℚ
  output_total : ℚ
  input_cgst : ℚ
  input_sgst : ℚ
  input_igst : ℚ
  input_total : ℚ
  sales_count : ℕ
  purchase_count : ℕ
deriving DecidableEq, Repr

/-- The output-GST accumulation loop over the filtered sales. -/
def gstOutputFold (business? : Option BusinessProfile) (sales : List Invoice) :
    ℚ × ℚ × ℚ :=
  sales.foldl
    (fun acc inv =>
      match business? with
      | some b =>
        if inv.place_of_supply = b.state_code then
          (acc.1 + (inv.total_gst_paise : ℚ) / 100 / 2,
           acc.2.1 + (inv.total_gst_paise : ℚ) / 100 / 2, acc.2.2)
        else (acc.1, acc.2.1, acc.2.2 + (inv.total_gst_paise : ℚ) / 100)
      | none => (acc.1, acc.2.1, acc.2.2 + (inv.total_gst_paise : ℚ) / 100))
    (0, 0, 0)

/-- The input-GST accumulation loop over the filtered purchases. -/
def gstInputFold (business? : Option BusinessProfile)
    (purchases : List PurchaseInv) : ℚ × ℚ × ℚ :=
  purchases.foldl
    (fun acc pu =>
      match business? with
      | some b =>
        if pu.place_of_supply = b.state_code then
          (acc.1 + (pu.total_gst : ℚ) / 100 / 2,
           acc.2.1 + (pu.total_gst : ℚ) / 100 / 2, acc.2.2)
        else (acc.1, acc.2.1, acc.2.2 + (pu.total_gst : ℚ) / 100)
      | none => (acc.1, acc.2.1, acc.2.2 + (pu.total_gst : ℚ) / 100))
    (0, 0, 0)

/-- `report_service.generate_gst_summary`: date-range and status filters,
then the two accumulation loops and two-decimal rounding. -/
def generate_gst_summary (business? : Option BusinessProfile)
    (invoices : List Invoice) (purchases : List PurchaseInv)
    (from_date to_date : ℤ) : GSTSummary :=
  let sales := invoices.filter (fun i =>
    decide (from_date ≤ i.invoice_date) && decide (i.invoice_date ≤ to_date) &&
      (i.status == "FINAL"))
  let purch := purchases.filter (fun p =>
    decide (from_date ≤ p.purchase_date) && decide (p.purchase_date ≤ to_date) &&
      (p.status == "FINAL"))
  let outs := gstOutputFold business? sales
  let ins := gstInputFold business? purch
  { output_cgst := round2 outs.1
    output_sgst := round2 outs.2.1
    output_igst := round2 outs.2.2
    output_total := round2 (outs.1 + outs.2.1 + outs.2.2)
    input_cgst := round2 ins.1
    input_sgst := round2 ins.2.1
    input_igst := round2 ins.2.2
    input_total := round2 (ins.1 + ins.2.1 + ins.2.2)
    sales_count := sales.length
    purchase_count := purch.length }

/-! ### Claim C4: GST summary input side -/

/-- C4: the purchase filter of `generate_gst_summary` requires
`status == "FINAL"`, a value no purchase invoice ever carries (the domain
is Draft/Finalized/Cancelled; `finalize_purchase` writes `"Finalized"`).
Hence for every state whose purchase statuses lie in that domain the
reported input GST is 0 and the purchase count is 0 — never the sum over
finalized purchases the claim (and the function's own docstring) demand. -/
theorem c4_gst_summary_input_always_zero (business? : Option BusinessProfile)
    (invoices : List Invoice) (purchases : List PurchaseInv)
    (from_date to_date : ℤ)
    (hdom : ∀ p ∈ purchases,
      p.status = "Draft" ∨ p.status = "Finalized" ∨ p.status = "Cancelled") :
    (generate_gst_summary business? invoices purchases from_date to_date).input_cgst = 0 ∧
    (generate_gst_summary business? invoices purchases from_date to_date).input_sgst = 0 ∧
    (generate_gst_summary business? invoices purchases from_date to_date).input_igst = 0 ∧
    (generate_gst_summary business? invoices purchases from_date to_date).input_total = 0 ∧
    (generate_gst_summary business? invoices purchases from_date to_date).purchase_count = 0 := by
  have hfilter : purchases.filter (fun p =>
      decide (from_date ≤ p.purchase_date) && decide (p.purchase_date ≤ to_date) &&
        (p.status == "FINAL")) = [] := by
    rw [List.filter_eq_nil_iff]
    intro p hmem
    rcases hdom p hmem with hs | hs | hs <;> simp [hs]
  have hzero : round2 0 = 0 := by
    unfold round2
    rw [show ((0:ℚ) * 100) = 0 from by ring, roundHalfEven_zero]
    norm_num
  unfold generate_gst_summary
  rw [hfilter]
  exact ⟨hzero, hzero, hzero, by simpa [gstInputFold] using hzero, rfl⟩

/-- C4 failing input: a Finalized purchase with 1800 paise of input GST
inside the reporting period. -/
def wFinalizedPurchase : PurchaseInv :=
  { wPurchase with status := "Finalized", total_gst := 1800, finalized_at := some 7 }

/-- C4 witness: on the failing input the summary reports 0 input GST,
while the stored GST of the finalized purchase in the period is 18.00
rupees — the claimed sum is not what the code returns. -/
theorem c4_gst_summary_input_always_zero_witness :
    (generate_gst_summary (some wBusiness) [] [wFinalizedPurchase] 0 10).input_total = 0 ∧
    (generate_gst_summary (some wBusiness) [] [wFinalizedPurchase] 0 10).input_total ≠
      (wFinalizedPurchase.total_gst : ℚ) / 100 := by
  have h := c4_gst_summary_input_always_zero (some wBusiness) [] [wFinalizedPurchase]
    0 10 (by decide)
  refine ⟨h.2.2.2.1, ?_⟩
  rw [h.2.2.2.1]
  norm_num [wFinalizedPurchase, wPurchase]
